import Mathlib

/-!
Verification of the chat-memory core against its natural-language
specification.  Each subsystem named by the claims is shallowly embedded:

* `PyStr` — character-level models of the Python string operations used by
  the vantage engine (lower-casing, whitespace collapse, substring search,
  the two regex tests of `extract_sd_features`).
* `VE` — `rag_engine/vantage_engine.py`: `extract_sd_features`,
  `normalize_limits`, `derive_params`, `decide`.
* `Gravity` — `rag_engine/gravity.py`: `compute_misalignment`.
* `Initiator` — `initiator_daemon.py`: `claim_one_job`, `finish_job_failure`.
* `Fact` — `fact_jobs.py` + `card_jobs.py`: seeding, extraction and
  card consolidation, run end to end on concrete states.
* `Decay` — `card_jobs.py`: `card_decay_once` (real-valued, since the decay
  factor is `0.5 ** (dt_days / half_life_days)`).
* `Cards` — `app.py`: the `DELETE /cards/{user_id}/{card_id}` handler.

Numeric values that Python holds in floats are modelled as rationals (reals
where a transcendental power appears); all comparisons the claims exercise
are far from the float-vs-exact boundary.
-/

namespace PyStr

/-- Python `\s` (whitespace class): space, tab, newline, carriage return,
vertical tab, form feed. -/
def isPySpace (c : Char) : Bool :=
  c = ' ' || c = '\t' || c = '\n' || c = '\r' || c = Char.ofNat 11 || c = Char.ofNat 12

/-- One step of `re.sub(r"\s+", " ", t)`: collapse every whitespace run to a
single space.  The boolean records whether the previous character was
whitespace. -/
def collapseWsAux : Bool → List Char → List Char
  | _, [] => []
  | prevSp, c :: cs =>
    if isPySpace c then
      if prevSp then collapseWsAux true cs else ' ' :: collapseWsAux true cs
    else c :: collapseWsAux false cs

def collapseWs (l : List Char) : List Char := collapseWsAux false l

/-- Python `str.strip()` on a character list. -/
def stripWs (l : List Char) : List Char :=
  ((l.dropWhile isPySpace).reverse.dropWhile isPySpace).reverse

/-- `_norm_text`: lowercase, collapse whitespace, strip. -/
def normText (s : String) : List Char :=
  stripWs (collapseWs (s.data.map Char.toLower))

/-- `pat` is a prefix of `hay`. -/
def startsWith : List Char → List Char → Bool
  | [], _ => true
  | _ :: _, [] => false
  | p :: ps, h :: hs => p = h && startsWith ps hs

/-- Python `pat in hay` substring test. -/
def containsSub (pat : List Char) : List Char → Bool
  | [] => startsWith pat []
  | h :: hs => startsWith pat (h :: hs) || containsSub pat hs

/-- Python word character for `\b`: `[A-Za-z0-9_]`. -/
def isWordChar (c : Char) : Bool := c.isAlphanum || c = '_'

/-- After the first digit of a candidate run: remaining digits, then a
non-word character or the end of the text (`\d+\b`). -/
def digitRunOk : List Char → Bool
  | [] => true
  | c :: cs => if c.isDigit then digitRunOk cs else !(isWordChar c)

/-- `re.search(r"\b\d+(\.\d+)?\b", t)` is truthy iff some digit run starts at
a word boundary and the maximal word-character run from there is all digits
(a fractional part only extends a match that already exists, so presence is
decided by the integer-part test). -/
def hasNumRun : Bool → List Char → Bool
  | _, [] => false
  | prevWord, c :: cs =>
    (c.isDigit && !prevWord && digitRunOk cs) || hasNumRun (isWordChar c) cs

def hasNumberToken (t : List Char) : Bool := hasNumRun false t

/-- Character class of `re.search(r"/[A-Za-z0-9_\-./]+", t)`. -/
def isPathChar (c : Char) : Bool :=
  c.isAlphanum || c = '_' || c = '-' || c = '.' || c = '/'

/-- `re.search(r"/[A-Za-z0-9_\-./]+", t)`: a slash followed by at least one
path character. -/
def hasPathToken : List Char → Bool
  | [] => false
  | c :: cs =>
    (c = '/' && (match cs with | [] => false | d :: _ => isPathChar d)) || hasPathToken cs

end PyStr

namespace VE

open PyStr

/-- `_clamp(x, lo, hi)`. -/
def clamp (x lo hi : ℚ) : ℚ := if x < lo then lo else if hi < x then hi else x

/-- `_clamp01` on an already-numeric value. -/
def clamp01 (x : ℚ) : ℚ := if x < 0 then 0 else if 1 < x then 1 else x

/-- `_AUTHORITY_MARKERS`. -/
def AUTHORITY_MARKERS : List String :=
  ["do it now", "do this now", "immediately",
   "you must", "you have to", "required",
   "i command", "obey",
   "as your boss", "as your manager"]

/-- `_COERCION_MARKERS`. -/
def COERCION_MARKERS : List String :=
  ["or else",
   "if you don't comply", "if you do not comply",
   "if you don't do", "if you do not do",
   "you'll regret it", "you will regret it",
   "i'll report you", "i will report you",
   "i'll punish you", "i will punish you",
   "ban you", "fire you", "get you fired"]

/-- `_THREAT_MARKERS`. -/
def THREAT_MARKERS : List String :=
  ["i will hurt you", "i'm going to hurt you",
   "i will kill you", "i'm going to kill you"]

/-- `_POLITE_MARKERS`. -/
def POLITE_MARKERS : List String :=
  ["please", "thanks", "thank you", "appreciate", "could you", "can you"]

/-- `_INSULT_MARKERS`. -/
def INSULT_MARKERS : List String :=
  ["idiot", "stupid", "moron", "shut up", "trash", "worthless"]

/-- `_NEGOTIATION_MARKERS`. -/
def NEGOTIATION_MARKERS : List String :=
  ["tradeoff", "trade-off", "compromise",
   "option", "options", "either", "instead",
   "unless", "what if", "could we", "can we"]

/-- `_EVIDENCE_MARKERS`. -/
def EVIDENCE_MARKERS : List String :=
  ["evidence", "data", "benchmark", "logs", "trace", "repro", "metrics"]

/-- `_DELIVERABLE_MARKERS`. -/
def DELIVERABLE_MARKERS : List String :=
  ["build", "implement", "patch", "edit", "fix", "refactor", "write",
   "create", "add", "remove", "change", "run", "commands", "steps",
   "update", "revise", "revision", "correct", "amend", "reconsider", "retract"]

/-- `_CONSTRAINT_MARKERS`. -/
def CONSTRAINT_MARKERS : List String :=
  ["python", "sql", "bash", "linux", "systemd", "fastapi", "qdrant", "postgres",
   "seebx", "verbal sage", "/opt/", "port ", "curl", "grep", "rg "]

/-- `_EXPLAIN_MARKERS`. -/
def EXPLAIN_MARKERS : List String :=
  ["tell me about", "explain", "overview", "describe",
   "from a", "perspective"]

/-- `_count_marker_hits`: how many distinct markers occur at least once. -/
def countMarkerHits (t : List Char) (markers : List String) : ℕ :=
  (markers.filter (fun m => !m.isEmpty && containsSub m.data t)).length

/-- `any(w in t for w in ws)`. -/
def anySub (t : List Char) (ws : List String) : Bool :=
  ws.any (fun w => containsSub w.data t)

/-- The eight SD features emitted by `extract_sd_features` (all rationals,
the Python floats never leave exactly-representable decimal arithmetic on
the inputs the claims use). -/
structure SDVal where
  AP : ℚ
  CO : ℚ
  TH : ℚ
  RS : ℚ
  NL : ℚ
  AQ : ℚ
  GC : ℚ
  SR : ℚ
deriving Repr, DecidableEq

/-- `extract_sd_features(text, context)`. -/
def extract_sd_features (text : String) (context : String := "") : SDVal :=
  let t := normText (context ++ "\n" ++ text)
  let apHits := countMarkerHits t AUTHORITY_MARKERS
  let coHits := countMarkerHits t COERCION_MARKERS
  let thHits := countMarkerHits t THREAT_MARKERS
  let ap := clamp ((22/100) * apHits) 0 1
  let co := clamp ((30/100) * coHits) 0 1
  let th := clamp ((55/100) * thHits) 0 1
  let rs := clamp ((1/2)
      + (18/100) * (min 2 (countMarkerHits t POLITE_MARKERS) : ℕ)
      - (30/100) * (min 2 (countMarkerHits t INSULT_MARKERS) : ℕ)) 0 1
  let nl := clamp ((18/100) * countMarkerHits t NEGOTIATION_MARKERS) 0 1
  let aq := clamp
      ((if anySub t ["because", "therefore", "so that", "reason is"] then 25/100 else 0)
      + (if hasNumberToken t then 15/100 else 0)
      + (if 0 < countMarkerHits t EVIDENCE_MARKERS then 25/100 else 0)
      + (if anySub t ["however", "on the other hand", "counterexample", "tradeoff", "trade-off"]
          then 15/100 else 0)
      + (if anySub t ["for example", "e.g.", "such as"] then 10/100 else 0)) 0 1
  let gc := clamp
      ((if 0 < countMarkerHits t DELIVERABLE_MARKERS then 35/100 else 0)
      + (if 0 < countMarkerHits t CONSTRAINT_MARKERS then 25/100 else 0)
      + (if hasPathToken t then 15/100 else 0)
      + (if anySub t ["output", "return", "exit code", "error", "expected", "must not"]
          then 15/100 else 0)
      + (if 0 < countMarkerHits t EXPLAIN_MARKERS then 35/100 else 0)) 0 1
  { AP := ap, CO := co, TH := th, RS := rs, NL := nl, AQ := aq, GC := gc, SR := 0 }

/-- Normalized limits `{Y,R,C,S}`. -/
structure Limits where
  Y : ℚ
  R : ℚ
  C : ℚ
  S : ℚ
deriving Repr, DecidableEq

/-- A possibly missing / possibly non-numeric limits entry: `none` stands for
a missing key or a value `float()` rejects (both fall back to the default). -/
structure LimitsIn where
  Y : Option ℚ := none
  R : Option ℚ := none
  C : Option ℚ := none
  S : Option ℚ := none

/-- `normalize_limits`: missing keys default to 0.5, values clamped to [0,1]. -/
def normalize_limits (src : LimitsIn) : Limits :=
  { Y := clamp01 (src.Y.getD (1/2)), R := clamp01 (src.R.getD (1/2)),
    C := clamp01 (src.C.getD (1/2)), S := clamp01 (src.S.getD (1/2)) }

/-- Python `round` rounds half to even. -/
def pyRound (x : ℚ) : ℤ :=
  let f := ⌊x⌋
  let r := x - f
  if r < 1/2 then f else if 1/2 < r then f + 1 else if f % 2 = 0 then f else f + 1

/-- The dictionary `derive_params` returns. -/
structure Params where
  P : ℚ
  comply_cap : ℚ
  revision_gate : ℚ
  revision_allowed : Bool
  delta_strength_max : ℚ
  eta : ℚ
  lambda : ℚ
  eta_policy : ℚ
  eta_surface : ℚ
  token_target : ℤ
  hedge_budget : ℤ
  affirm_budget : ℤ
  compliment_budget : ℤ
deriving Repr, DecidableEq

/-- `derive_params(sd, limits)`. -/
def derive_params (sd : SDVal) (limits : Limits) : Params :=
  let P := max sd.AP (max sd.CO sd.TH)
  let comply_cap0 := (5/100 + (95/100) * limits.Y) * (1 - (8/10) * P)
  let comply_cap1 := if sd.CO > 1/2 || sd.TH > 4/10 then 0 else comply_cap0
  let comply_cap := clamp comply_cap1 0 1
  let revision_gate := limits.R
  let revision_allowed :=
    decide (sd.AQ ≥ 85/100 - (35/100) * revision_gate) && decide (P < 2/10)
      && decide (sd.RS > 3/10)
  let eta := 1/100 + (1/10) * limits.C
  { P := P, comply_cap := comply_cap, revision_gate := revision_gate,
    revision_allowed := revision_allowed,
    delta_strength_max := 5/100 + (4/10) * revision_gate,
    eta := eta, lambda := 1/4 - (2/10) * limits.C,
    eta_policy := eta * (1 - P), eta_surface := eta,
    token_target := pyRound (120 + 600 * limits.S),
    hedge_budget := pyRound (1 + 10 * limits.S),
    affirm_budget := pyRound ((0 + 8 * limits.S) * (1 - P)),
    compliment_budget := pyRound ((0 + 4 * limits.S) * (1 - P)) }

/-- `float(d.get(key) or default)`: a missing key, `None`, or a stored `0.0`
all fall back to the default (Python `or` tests truthiness). -/
def orDefault (v : Option ℚ) (d : ℚ) : ℚ :=
  match v with
  | none => d
  | some x => if x = 0 then d else x

/-- The `sd` argument of `decide` as the code reads it: any key may be
absent (`sd.get(k)` then yields `None`). -/
structure SDDict where
  AP : Option ℚ := none
  CO : Option ℚ := none
  TH : Option ℚ := none
  RS : Option ℚ := none
  NL : Option ℚ := none
  AQ : Option ℚ := none
  GC : Option ℚ := none
  SR : Option ℚ := none

/-- The `params` argument of `decide` as the code reads it
(`params.get("P")`, `params.get("comply_cap")`, truthiness of
`params.get("revision_allowed")`). -/
structure ParamsDict where
  P : Option ℚ := none
  comply_cap : Option ℚ := none
  revision_allowed : Bool := false

/-- The `routing` argument of `decide`.  `answer_first` is the truthiness of
`routing.get("answer_first", True)`; the two `Option` fields are `none` when
the key is missing or its value makes `float`/`int` raise (both paths yield
the hard-coded default). -/
structure Routing where
  answer_first : Bool := true
  clarify_bias : Option ℚ := none
  max_clarify_questions : Option ℤ := none

/-- The dictionary `decide` returns. -/
structure Decision where
  response_class : String
  stance_revision_allowed : Bool
  ask_for_constraints : Bool
  max_clarify_questions : ℤ
deriving Repr, DecidableEq

/-- `decide(sd, params, routing)`: deterministic response-class selection. -/
def decide (sd : SDDict) (params : ParamsDict) (routing : Routing) : Decision :=
  let answer_first := routing.answer_first
  let cb0 := routing.clarify_bias.getD (1/10)
  let clarify_bias := if cb0 < 0 then 0 else if 1 < cb0 then (1 : ℚ) else cb0
  let mq0 := routing.max_clarify_questions.getD 1
  let max_clarify_questions := if mq0 < 0 then 0 else if 3 < mq0 then (3 : ℤ) else mq0
  let AP := orDefault sd.AP 0
  let CO := orDefault sd.CO 0
  let TH := orDefault sd.TH 0
  let RS := orDefault sd.RS (1/2)
  let NL := orDefault sd.NL 0
  let AQ := orDefault sd.AQ 0
  let GC := orDefault sd.GC 0
  let SR := orDefault sd.SR 0
  let P := orDefault params.P (max AP (max CO TH))
  let comply_cap := orDefault params.comply_cap 0
  let revision_allowed := params.revision_allowed
  if SR ≥ 1/2 then
    { response_class := "REDIRECT", stance_revision_allowed := false,
      ask_for_constraints := false, max_clarify_questions := 0 }
  else if CO > 1/2 || TH > 4/10 then
    let rc := if GC ≥ 4/10 ∧ NL ≥ 2/10 then "NEGOTIATE" else "REFUSE"
    { response_class := rc, stance_revision_allowed := false,
      ask_for_constraints := rc == "NEGOTIATE", max_clarify_questions := 0 }
  else if GC < 35/100 ∧ P < 3/10 then
    if max_clarify_questions ≤ 0 then
      { response_class := "COMPLY", stance_revision_allowed := false,
        ask_for_constraints := false, max_clarify_questions := 0 }
    else if answer_first then
      { response_class := "COMPLY", stance_revision_allowed := false,
        ask_for_constraints := false, max_clarify_questions := 0 }
    else if clarify_bias ≤ 0 then
      { response_class := "COMPLY", stance_revision_allowed := false,
        ask_for_constraints := false, max_clarify_questions := 0 }
    else
      let nc0 := (35/100 - GC) / (35/100)
      let need_clarify := if nc0 < 0 then 0 else if 1 < nc0 then (1 : ℚ) else nc0
      let threshold := 1 - clarify_bias
      if need_clarify > threshold then
        { response_class := "CLARIFY", stance_revision_allowed := false,
          ask_for_constraints := true, max_clarify_questions := max_clarify_questions }
      else
        { response_class := "COMPLY", stance_revision_allowed := false,
          ask_for_constraints := false, max_clarify_questions := 0 }
  else
    let rc0 := if AP ≥ 6/10 ∧ CO < 3/10 then "NEGOTIATE" else "COMPLY"
    let rc := if rc0 = "COMPLY" ∧ comply_cap < 2/10 ∧ (AP ≥ 6/10 ∨ P ≥ 3/10)
      then "NEGOTIATE" else rc0
    let ask_for_constraints := rc == "NEGOTIATE" || rc == "CLARIFY"
    let stance_revision_allowed :=
      revision_allowed && Decidable.decide (AQ ≥ 6/10) && Decidable.decide (P < 2/10)
        && Decidable.decide (RS > 3/10)
    { response_class := rc, stance_revision_allowed := stance_revision_allowed,
      ask_for_constraints := ask_for_constraints,
      max_clarify_questions := if rc = "CLARIFY" then max_clarify_questions else 0 }

/-- The full SD record as the dictionary `extract_sd_features` returns. -/
def SDVal.toDict (s : SDVal) : SDDict :=
  { AP := some s.AP, CO := some s.CO, TH := some s.TH, RS := some s.RS,
    NL := some s.NL, AQ := some s.AQ, GC := some s.GC, SR := some s.SR }

/-- The params entries `decide` reads, from a `derive_params` result. -/
def Params.toDict (p : Params) : ParamsDict :=
  { P := some p.P, comply_cap := some p.comply_cap,
    revision_allowed := p.revision_allowed }

end VE

namespace Gravity

/-- `gravity_weights.get(t, 0.0)` on the dict modelled as an association
list (keys are unique; the first binding wins, as in a Python dict). -/
def getW (weights : List (String × ℚ)) (t : String) : ℚ :=
  ((weights.find? (fun p => p.1 == t)).map Prod.snd).getD 0

/-- `t in gravity_weights`. -/
def keyMem (weights : List (String × ℚ)) (t : String) : Bool :=
  weights.any (fun p => p.1 == t)

/-- `compute_misalignment(query_tags, gravity_weights)` from
`rag_engine/gravity.py`. -/
def compute_misalignment (query_tags : List String) (gravity_weights : List (String × ℚ)) : ℚ :=
  if gravity_weights.isEmpty || query_tags.isEmpty then 0
  else
    let overlap := query_tags.filter (fun t => keyMem gravity_weights t)
    if overlap.isEmpty then 3/10
    else
      let misaligned := overlap.filter (fun t => Decidable.decide (getW gravity_weights t ≤ 0))
      min 1 (max 0 ((misaligned.length : ℚ) / (overlap.length : ℚ)))

end Gravity

namespace Cards

/-- Python `str.strip()`. -/
def pyStrip (s : String) : String := ⟨PyStr.stripWs s.data⟩

/-- Python `a or b` on strings: `b` when `a` is empty. -/
def orIfEmpty (s d : String) : String := if s = "" then d else s

/-- One point of the `memory_raw` collection, with the payload fields
`cards_delete` reads. -/
structure Point where
  id : String
  user_id : String
  kind : String
  topic_key : String
deriving Repr, DecidableEq

/-- One row of `vantage_identity.user_alias`. -/
structure AliasRow where
  vantage_id : String
  alias_user_id : String
  canonical_user_id : String
deriving Repr, DecidableEq

/-- `resolve_canonical_user_id(vantage_id, alias_user_id)` from `app.py`:
returns `(canonical, alias)`, falling back to the alias when no row (or an
empty canonical id) is found. -/
def resolve_canonical_user_id (aliases : List AliasRow) (vantage_id alias_user_id : String) :
    String × String :=
  let vid := orIfEmpty (pyStrip (orIfEmpty vantage_id "default")) "default"
  let al := orIfEmpty (pyStrip alias_user_id) "anon"
  let canon :=
    match aliases.find? (fun a => a.vantage_id == vid && a.alias_user_id == al) with
    | some a => if a.canonical_user_id = "" then al else a.canonical_user_id
    | none => al
  (canon, al)

/-- `DELETE /cards/{user_id}/{card_id}` (`cards_delete` in `app.py`):
returns `(http_status, detail)` and the point store after the call.
`retrieve` by a single id is the first store point with that id; a delete
removes every point with the id. -/
def cards_delete (aliases : List AliasRow) (points : List Point)
    (user_id card_id : String) (vantage_id : String := "default") :
    (ℕ × String) × List Point :=
  let uid0 := orIfEmpty (pyStrip user_id) "anon"
  let uid := (resolve_canonical_user_id aliases vantage_id uid0).1
  match points.find? (fun p => p.id == card_id) with
  | none => ((200, "not_found"), points)
  | some p =>
    if pyStrip p.user_id ≠ uid then ((400, "user_mismatch"), points)
    else if pyStrip p.topic_key = "__singleton__" then ((403, "singleton_locked"), points)
    else ((200, "deleted"), points.filter (fun q => q.id ≠ card_id))

end Cards

namespace Initiator

inductive JobStatus
  | queued
  | running
  | succeeded
  | failed
deriving Repr, DecidableEq

/-- One row of `vantage_initiator.job`.  Times are integer epoch seconds. -/
structure Job where
  job_id : ℕ
  vantage_id : String
  job_type : String
  payload : String
  priority : ℤ
  status : JobStatus
  attempts : ℤ
  max_attempts : ℤ
  scheduled_at : ℤ
  locked_by : Option String
  locked_at : Option ℤ
  last_error : Option String
deriving Repr, DecidableEq

/-- One row of `vantage_initiator.job_run` (drive snapshots held opaque). -/
structure JobRun where
  run_id : ℕ
  job_id : ℕ
  worker_id : String
  before_drives : String
  finished_at : Option ℤ
  after_drives : Option String
  outcome : Option String
  error : Option String
deriving Repr, DecidableEq

/-- The queue tables plus the database clock (`now()`); `next_run_id` models
the `job_run` serial. -/
structure QState where
  now : ℤ
  jobs : List Job
  runs : List JobRun
  next_run_id : ℕ
deriving Repr, DecidableEq

/-- `str(x).strip()` truthiness: some non-whitespace character. -/
def nonBlank (s : String) : Bool := s.data.any (fun c => !PyStr.isPySpace c)

/-- `count(*) ... WHERE vantage_id=$1 AND status='running'`. -/
def runningCount (st : QState) (vantage : String) : ℕ :=
  (st.jobs.filter (fun j =>
    j.vantage_id == vantage && j.status == JobStatus.running)).length

/-- The `WHERE` clause of the claim query. -/
def eligible (st : QState) (vantage : String) (allowed : List String) (j : Job) : Bool :=
  j.status == JobStatus.queued && Decidable.decide (j.scheduled_at ≤ st.now)
    && j.vantage_id == vantage && Decidable.decide (j.attempts < j.max_attempts)
    && allowed.contains j.job_type

def eligibleJobs (st : QState) (vantage : String) (allowed : List String) : List Job :=
  st.jobs.filter (eligible st vantage allowed)

/-- `ORDER BY priority ASC, scheduled_at ASC, job_id ASC` as a total order. -/
def keyLe (a b : Job) : Bool :=
  Decidable.decide (a.priority < b.priority)
    || (a.priority == b.priority
        && (Decidable.decide (a.scheduled_at < b.scheduled_at)
            || (a.scheduled_at == b.scheduled_at && Decidable.decide (a.job_id ≤ b.job_id))))

/-- `LIMIT 1` under that order: the least element of the list. -/
def selectMin : List Job → Option Job
  | [] => none
  | j :: js =>
    match selectMin js with
    | none => some j
    | some m => if keyLe j m then some j else some m

/-- `claim_one_job` from `initiator_daemon.py` (single transaction): returns
`(job_id, job_type, payload, run_id)` on a claim, and the queue state after
the commit.  The advisory/row locks serialize concurrent claimers; a single
step is the locked body itself. -/
def claim_one_job (st : QState) (vantage worker_id before_drives : String)
    (allowed_job_types : List String) (max_running_jobs : ℤ) :
    Option (ℕ × String × String × ℕ) × QState :=
  let allowed := allowed_job_types.filter nonBlank
  if allowed.isEmpty then (none, st)
  else if (runningCount st vantage : ℤ) ≥ max_running_jobs then (none, st)
  else
    match selectMin (eligibleJobs st vantage allowed) with
    | none => (none, st)
    | some j =>
      let jobs := st.jobs.map (fun x =>
        if x.job_id = j.job_id then
          { x with
            status := JobStatus.running
            locked_by := some worker_id
            locked_at := some st.now
            attempts := x.attempts + 1
            last_error := none }
        else x)
      let run : JobRun := {
        run_id := st.next_run_id
        job_id := j.job_id
        worker_id := worker_id
        before_drives := before_drives
        finished_at := none
        after_drives := none
        outcome := none
        error := none }
      (some (j.job_id, j.job_type, j.payload, st.next_run_id),
        { st with
          jobs := jobs
          runs := st.runs ++ [run]
          next_run_id := st.next_run_id + 1 })

/-- `(error or "")[:5000]`. -/
def errTrunc (error : String) : String := String.mk (error.data.take 5000)

/-- `finish_job_failure` from `initiator_daemon.py`: requeue with linear
backoff `attempts * 10s` while `attempts < max_attempts`, else mark failed;
always clear the lock, set `last_error`, and close the run. -/
def finish_job_failure (st : QState) (job_id run_id : ℕ)
    (after_drives error : String) : QState :=
  let err := errTrunc error
  { st with
    jobs := st.jobs.map (fun j =>
      if j.job_id = job_id then
        { j with
          status := if j.attempts < j.max_attempts then JobStatus.queued else JobStatus.failed
          scheduled_at := if j.attempts < j.max_attempts
            then st.now + j.attempts * 10 else j.scheduled_at
          locked_by := none
          locked_at := none
          last_error := some err }
      else j)
    runs := st.runs.map (fun r =>
      if r.run_id = run_id then
        { r with
          finished_at := some st.now
          after_drives := some after_drives
          outcome := none
          error := some err }
      else r) }

end Initiator

namespace Decay

open scoped Classical

/-- `round(x, 3)` from a float into the `numeric(4,3)` column, as an exact
rational.  (Python rounds half to even; the tie at a half-thousandth never
arises in the claims checked here.) -/
noncomputable def round3 (x : ℝ) : ℚ := (round (x * 1000) : ℚ) / 1000

/-- `round(x, 3)` applied to a value already held as a rational. -/
def round3q (x : ℚ) : ℚ := (round (x * 1000) : ℚ) / 1000

/-- `_clamp01` on a real. -/
noncomputable def clamp01R (x : ℝ) : ℝ := if x < 0 then 0 else if 1 < x then 1 else x

/-- The card payload as `card_decay_once` sees it: the `last_decay_at` key
(an epoch second when present) and the rest of the JSON object, held
opaque. -/
structure Payload where
  last_decay_at : Option ℤ
  rest : String
deriving Repr, DecidableEq

/-- One row of `vantage_card.card_head`.  Times are integer epoch seconds;
`strength`/`confidence` are the stored `numeric(4,3)` values. -/
structure Card where
  card_id : ℕ
  vantage_id : String
  kind : String
  topic_key : String
  summary : String
  strength : ℚ
  confidence : ℚ
  status : String
  updated_at : ℤ
  payload : Payload
deriving Repr, DecidableEq

/-- One row of `vantage_card.card_signal`. -/
structure Signal where
  vantage_id : String
  kind : String
  topic_key : String
  signal_type : String
  magnitude : ℚ
  created_at : ℤ
deriving Repr, DecidableEq

/-- The signal rows the per-card query sums: same vantage/kind/topic_key,
`created_at > last_ref`, and within the recency window. -/
def matchingSignals (vantage : String) (signal_window_days : ℤ) (now last_ref : ℤ)
    (signals : List Signal) (c : Card) : List Signal :=
  signals.filter (fun s =>
    s.vantage_id == vantage && s.kind == c.kind && s.topic_key == c.topic_key
      && Decidable.decide (last_ref < s.created_at)
      && Decidable.decide (now - signal_window_days * 86400 ≤ s.created_at))

/-- `sum(CASE WHEN signal_type IN types THEN magnitude ELSE 0 END)`. -/
def sigSum (sigs : List Signal) (types : List String) : ℚ :=
  ((sigs.filter (fun s => types.contains s.signal_type)).map (fun s => s.magnitude)).sum

/-- The body of the per-card loop of `card_decay_once` (parameters already
normalized, `min_interval_days = min_interval_minutes / 1440`): the updated
row, or the row itself when the card is skipped or the final update
condition is false. -/
noncomputable def decayCard (vantage : String) (half_life_days : ℚ)
    (signal_window_days : ℤ) (min_interval_days : ℚ) (now : ℤ)
    (signals : List Signal) (c : Card) : Card :=
  let last_ref := c.payload.last_decay_at.getD c.updated_at
  let dt0 : ℚ := ((now - last_ref : ℤ) : ℚ) / 86400
  let dt_days : ℚ := if dt0 < 0 then 0 else dt0
  let sigs := matchingSignals vantage signal_window_days now last_ref signals c
  let rewardSum := sigSum sigs ["reward"]
  let punishSum := sigSum sigs ["punish", "correction"]
  let useSum := sigSum sigs ["use"]
  let any_signals : Bool := Decidable.decide (0 < rewardSum + punishSum + useSum)
  if !any_signals && Decidable.decide (dt_days < min_interval_days) then c
  else
    let factor : ℝ := (1/2 : ℝ) ^ ((dt_days : ℝ) / (half_life_days : ℝ))
    let delta : ℚ := min (20/100) ((2/100) * useSum) + min (20/100) ((5/100) * rewardSum)
      - min (30/100) ((7/100) * punishSum)
    let conf_half_life : ℚ := max 180 (half_life_days * 4)
    let conf_factor : ℝ := (1/2 : ℝ) ^ ((dt_days : ℝ) / (conf_half_life : ℝ))
    let new_strength := round3 (clamp01R ((c.strength : ℝ) * factor + (delta : ℝ)))
    let new_confidence := round3 (clamp01R ((c.confidence : ℝ) * conf_factor
      + ((min (10/100) ((1/100) * rewardSum) : ℚ) : ℝ)
      - ((min (15/100) ((2/100) * punishSum) : ℚ) : ℝ)))
    let old_strength := round3q c.strength
    let old_confidence := round3q c.confidence
    if new_strength ≠ old_strength ∨ new_confidence ≠ old_confidence
        ∨ any_signals = true ∨ min_interval_days ≤ dt_days then
      { c with
        strength := new_strength
        confidence := new_confidence
        payload := { last_decay_at := some now, rest := c.payload.rest } }
    else c

/-- Insertion into a list already sorted by `updated_at` (ties keep the
earlier element first). -/
def insertByUpdated (c : Card) : List Card → List Card
  | [] => [c]
  | d :: ds => if d.updated_at ≤ c.updated_at then d :: insertByUpdated c ds else c :: d :: ds

/-- `ORDER BY updated_at ASC` as an insertion sort. -/
def sortByUpdated : List Card → List Card
  | [] => []
  | c :: cs => insertByUpdated c (sortByUpdated cs)

/-- The card selection of `card_decay_once`: active, non-system cards of the
vantage, oldest `updated_at` first, at most `limit_cards`. -/
def selectCards (vantage : String) (limit_cards : ℤ) (cards : List Card) : List Card :=
  (sortByUpdated (cards.filter (fun c =>
    c.vantage_id == vantage && c.status == "active" && c.kind != "system"))).take
    limit_cards.toNat

/-- `card_decay_once` from `card_jobs.py`: parameter normalization, card
selection, and the per-card update applied to every selected row. -/
noncomputable def card_decay_once (vantage : String) (limit_cards : ℤ)
    (half_life_days : ℚ) (signal_window_days : ℤ) (min_interval_minutes : ℤ)
    (now : ℤ) (cards : List Card) (signals : List Signal) : List Card :=
  if limit_cards ≤ 0 then cards
  else
    let hl := if half_life_days ≤ 0 then 45 else half_life_days
    let swd := if signal_window_days ≤ 0 then 180 else signal_window_days
    let mim := if min_interval_minutes < 0 then 0 else min_interval_minutes
    let mid : ℚ := (mim : ℚ) / 1440
    let sel := selectCards vantage limit_cards cards
    cards.map (fun c =>
      if sel.any (fun d => d.card_id == c.card_id) then
        decayCard vantage hl swd mid now signals c
      else c)

end Decay

namespace Fact

open PyStr

/-- ASCII letter (`[A-Za-z]`). -/
def isAsciiLetter (c : Char) : Bool := ('A' ≤ c && c ≤ 'Z') || ('a' ≤ c && c ≤ 'z')

/-- ASCII letter or digit. -/
def isAsciiAlnum (c : Char) : Bool := isAsciiLetter c || c.isDigit

/-- The key character class of the seeding regex: `[A-Za-z0-9 _]`. -/
def isSeedKeyChar (c : Char) : Bool := isAsciiAlnum c || c = ' ' || c = '_'

/-- A prefix `P` matches `K* S*` (key characters then whitespace) iff after
dropping the maximal trailing whitespace run everything left is a key
character. -/
def keyThenWs (P : List Char) (isK : Char → Bool) : Bool :=
  ((P.reverse.dropWhile isPySpace).reverse).all isK

/-- The seeding regex
`[[:space:]]*[A-Za-z][A-Za-z0-9 _]*[[:space:]]*:[[:space:]]*[^\n]+`
matched from an anchor position (`^` or just after a newline).  After the
colon, `[[:space:]]*[^\n]+` succeeds iff some later character differs from a
newline (the whitespace class may swallow newlines). -/
def seedFromAnchor (l : List Char) : Bool :=
  match l.dropWhile isPySpace with
  | [] => false
  | c :: rest =>
    isAsciiLetter c
      && rest.any (fun d => d = ':')
      && keyThenWs (rest.takeWhile (fun d => d ≠ ':')) isSeedKeyChar
      && ((rest.drop ((rest.takeWhile (fun d => d ≠ ':')).length + 1)).any (fun d => d ≠ '\n'))

def seedMatchAux : List Char → Bool
  | [] => false
  | c :: cs => (c = '\n' && seedFromAnchor cs) || seedMatchAux cs

/-- The Postgres filter `cl.text ~ '(^|\n)[[:space:]]*[A-Za-z][A-Za-z0-9 _]*[[:space:]]*:[[:space:]]*[^\n]+'`. -/
def seedMatch (text : List Char) : Bool := seedFromAnchor text || seedMatchAux text

/-- Lower-case ASCII letter or digit (`[a-z0-9]`, the class kept by
`_norm_key`). -/
def isLowerAlnum (c : Char) : Bool := ('a' ≤ c && c ≤ 'z') || c.isDigit

/-- `re.sub(r"[^a-z0-9]+", "_", k)`: every run of other characters becomes
one underscore (the second `re.sub(r"_+", "_")` is then the identity). -/
def underscoreRuns : Bool → List Char → List Char
  | _, [] => []
  | prevU, c :: cs =>
    if isLowerAlnum c then c :: underscoreRuns false cs
    else if prevU then underscoreRuns true cs
    else '_' :: underscoreRuns true cs

/-- `_norm_key` from `fact_jobs.py`: strip, lower, collapse non-alphanumeric
runs to `_`, strip `_`, cap at 64 characters, fallback `"unknown"`. -/
def normKey (k : List Char) : String :=
  let l := (stripWs k).map Char.toLower
  let u := underscoreRuns false l
  let u := ((u.dropWhile (fun c => c = '_')).reverse.dropWhile (fun c => c = '_')).reverse
  let u := u.take 64
  if u.isEmpty then "unknown" else String.mk u

/-- The key character class of `_KV_RE`: letters, digits, space,
underscore, hyphen, slash. -/
def isKvKeyChar (c : Char) : Bool := isAsciiAlnum c || c = ' ' || c = '_' || c = '-' || c = '/'

/-- One extracted fact of `parse_kv_facts`. -/
structure KVFact where
  predicate : String
  value : String
  span_start : Option ℕ
  span_end : Option ℕ
  snippet : String
deriving Repr, DecidableEq

/-- `_KV_RE.match(line)`: optional whitespace, a letter, up to 64 key
characters, optional whitespace, a colon, then the value group
`\s*(.{1,500})\s*$`.
The key group may also absorb trailing whitespace before the colon; since
`_norm_key` collapses and strips it, the normalized key is computed from the
whitespace-stripped group.  The value group with its surrounding `\s*`
matches iff at least one character follows the colon (backtracking lets `.`
consume whitespace, so a whitespace-only remainder still matches and strips
to the empty value) and the stripped remainder has at most 500 characters;
`val = group(2).strip()` is that stripped remainder. -/
def kvLineMatch (line : List Char) : Option (String × String) :=
  if !line.any (fun d => d = ':') then none
  else
    let p := line.takeWhile (fun d => d ≠ ':')
    let rest := line.drop (p.length + 1)
    match p.dropWhile isPySpace with
    | [] => none
    | c :: q =>
      let qk := (q.reverse.dropWhile isPySpace).reverse
      if isAsciiLetter c && qk.all isKvKeyChar && qk.length ≤ 64
          && !rest.isEmpty && (stripWs rest).length ≤ 500 then
        some (normKey (c :: qk), String.mk (stripWs rest))
      else none

/-- A line-boundary character of Python `str.splitlines`: newline, carriage
return, vertical tab, form feed, the separator controls FS, GS, RS, NEL, and
the Unicode line and paragraph separators. -/
def isLineBreak (c : Char) : Bool :=
  c = '\n' || c = '\r' || c = '\x0b' || c = '\x0c'
    || c = '\x1c' || c = '\x1d' || c = '\x1e' || c = '\x85'
    || c = '\u2028' || c = '\u2029'

/-- Python `content.splitlines()`: split at every line-boundary character,
with `\r\n` counting as a single boundary and no empty trailing line. -/
def splitLines : List Char → List (List Char)
  | [] => []
  | '\r' :: '\n' :: cs => [] :: splitLines cs
  | c :: cs =>
    if isLineBreak c then [] :: splitLines cs
    else
      match splitLines cs with
      | [] => [[c]]
      | a :: as => (c :: a) :: as

/-- Python `content.find(line, offset)`: the least index at or after
`offset` where `line` occurs as a contiguous run of `content`, or none
(Python's -1). -/
def findFrom (content line : List Char) (offset : ℕ) : Option ℕ :=
  (List.range (content.length + 1)).find? (fun i =>
    decide (offset ≤ i) && ((content.drop i).take line.length == line))

/-- `parse_kv_facts(content, max_facts)`: each matching line yields an
`attr.<norm_key>` fact whose evidence span comes from
`content.find(line, offset)` with the running offset advanced by
`len(line) + 1` per line. -/
def parse_kv_facts (content : String) (max_facts : ℕ := 50) : List KVFact :=
  if content = "" then []
  else
    let step := fun (acc : List KVFact × ℕ) (line : List Char) =>
      let (facts, offset) := acc
      if facts.length ≥ max_facts then (facts, offset + line.length + 1)
      else
        match kvLineMatch line with
        | some (key, val) =>
          let span := findFrom content.data line offset
          (facts ++ [{
            predicate := "attr." ++ key
            value := val
            span_start := span
            span_end := span.map (fun i => i + line.length)
            snippet := String.mk (line.take 400) }], offset + line.length + 1)
        | none => (facts, offset + line.length + 1)
    ((splitLines content.data).foldl step ([], 0)).1

/-- `hashlib.sha256(...).hexdigest()`, modelled as an injective tagging
function: no claim inspects the digest's value, only that equal content
yields equal keys and distinct content yields distinct keys (the standard
collision-free abstraction of a cryptographic hash). -/
def sha256Hex (s : String) : String := "sha256:" ++ s

/-- One row of `public.chat_log` (the columns the fact pipeline reads). -/
structure ChatLogRow where
  id : ℕ
  user_id : String
  thread_id : Option ℕ
  vantage_id : Option String
  created_at : ℤ
  text : String
  source : String
deriving Repr, DecidableEq

inductive SourceStatus
  | pending
  | processing
  | done
  | error
deriving Repr, DecidableEq

/-- The metadata object written by `fact_seed_from_chat_log_once`. -/
structure Meta where
  origin : String
  chat_log_id : Option String
  role : String
  user_id : String
  thread_id : Option String
  vantage_id : Option String
  created_at : ℤ
deriving Repr, DecidableEq

/-- One row of `vantage_fact.source`. -/
structure Source where
  source_id : ℕ
  source_type : String
  external_id : String
  title : String
  content : String
  content_sha256 : Option String
  metadata : Option Meta
  status : SourceStatus
  created_at : ℤ
deriving Repr, DecidableEq

structure Entity where
  entity_id : ℕ
  entity_type : String
  canonical_name : String
deriving Repr, DecidableEq

structure PredicateRow where
  predicate : String
  cardinality : String
deriving Repr, DecidableEq

/-- One row of `vantage_fact.claim`; `object_v` is the `"v"` member of the
`{"type":"str","v":...}` literal, `canonical_key` the (modelled) digest of
`"s={subject}|p={predicate}|ol={object}|q={qualifiers}"`. -/
structure ClaimRow where
  claim_id : ℕ
  subject_entity_id : ℕ
  predicate : String
  object_v : String
  confidence : ℚ
  status : String
  canonical_key : String
deriving Repr, DecidableEq

/-- The canonical key of a string-literal claim with empty qualifiers. -/
def canonicalKey (subject : ℕ) (predicate v : String) : String :=
  "s=" ++ toString subject ++ "|p=" ++ predicate ++ "|ol=" ++ v ++ "|q="

structure EvidenceRow where
  claim_id : ℕ
  source_id : ℕ
  span_start : Option ℕ
  span_end : Option ℕ
  snippet : Option String
  extractor : String
  extractor_version : String
  extraction_confidence : ℚ
deriving Repr, DecidableEq

/-- The card payload fields the consolidation job reads and writes
(topic cards and the cursor card share the table, hence one record with
optional members; an absent member is an absent JSON key). -/
structure CPayload where
  mode : Option String := none
  source_id_last : Option ℕ := none
  chat_log_id_last : Option String := none
  user_id : Option String := none
  user_id_alias : Option String := none
  attr_key : Option String := none
  current_value : Option String := none
  value_counts : List (String × ℕ) := []
  last_seen_at : Option String := none
  cursor_updated_at : Option String := none
  cursor_done_chatlog_sources : Option ℕ := none
  cursor_link_sources : Option ℕ := none
  cursor_note_counts : List (String × ℕ) := []
  cursor_last_batch : Option (ℕ × ℕ × ℤ) := none
deriving Repr, DecidableEq

structure CardHead where
  card_id : ℕ
  vantage_id : String
  kind : String
  topic_key : String
  summary : String
  payload : CPayload
  strength : ℚ
  confidence : ℚ
  status : String
  updated_at : ℤ
deriving Repr, DecidableEq

structure CardRevision where
  revision_id : ℕ
  card_id : ℕ
  prev_revision_id : Option ℕ
  summary : String
  payload : CPayload
  reason : String
deriving Repr, DecidableEq

structure CardLink where
  card_id : ℕ
  link_type : String
  ref_id : String
  note : String
deriving Repr, DecidableEq

structure AliasRow where
  vantage_id : String
  alias_user_id : String
  canonical_user_id : String
deriving Repr, DecidableEq

/-- The relational state the three pipeline jobs read and write.  Serial
columns are modelled by `next_*` counters; `now` is the database clock. -/
structure PState where
  now : ℤ
  chat_log : List ChatLogRow
  sources : List Source
  next_source_id : ℕ
  entities : List Entity
  next_entity_id : ℕ
  preds : List PredicateRow
  claims : List ClaimRow
  next_claim_id : ℕ
  evidence : List EvidenceRow
  cards : List CardHead
  next_card_id : ℕ
  revisions : List CardRevision
  next_revision_id : ℕ
  links : List CardLink
  aliases : List AliasRow
deriving Repr, DecidableEq

/-- `external_id` of a seeded source. -/
def extId (i : ℕ) : String := "chat_log:" ++ toString i

/-- The vantage filter of the seeding query: `'default'` accepts null and
`'default'`, any other vantage only itself. -/
def vantageMatch (vantage : String) (v : Option String) : Bool :=
  (vantage == "default" && (v == none || v == some "default")) || (v == some vantage)

/-- The candidate filter of `fact_seed_from_chat_log_once`. -/
def seedCandidate (st : PState) (vantage : String) (cl : ChatLogRow) : Bool :=
  cl.source == "frontend/chat:user"
    && Decidable.decide (0 < cl.text.data.length)
    && Decidable.decide (cl.text.data.length ≤ 8000)
    && seedMatch cl.text.data
    && !(st.sources.any (fun s => s.external_id == extId cl.id))
    && vantageMatch vantage cl.vantage_id

/-- Insertion into a list sorted by `created_at` descending. -/
def insertByCreatedDesc (c : ChatLogRow) : List ChatLogRow → List ChatLogRow
  | [] => [c]
  | d :: ds =>
    if c.created_at ≤ d.created_at then d :: insertByCreatedDesc c ds
    else c :: d :: ds

/-- `ORDER BY created_at DESC`. -/
def sortByCreatedDesc : List ChatLogRow → List ChatLogRow
  | [] => []
  | c :: cs => insertByCreatedDesc c (sortByCreatedDesc cs)

/-- The source row the seeding insert writes for one candidate. -/
def mkSeedSource (now : ℤ) (sid : ℕ) (cl : ChatLogRow) : Source :=
  { source_id := sid
    source_type := "chat_log"
    external_id := extId cl.id
    title := "chat_log:user:" ++ (cl.vantage_id.getD "<NULL>") ++ ":" ++ toString cl.id
    content := cl.text
    content_sha256 := none
    metadata := some {
      origin := "public.chat_log"
      chat_log_id := some (toString cl.id)
      role := "user"
      user_id := cl.user_id
      thread_id := cl.thread_id.map toString
      vantage_id := cl.vantage_id
      created_at := cl.created_at }
    status := SourceStatus.pending
    created_at := now }

/-- `fact_seed_from_chat_log_once` from `fact_jobs.py`: insert up to `limit`
newest matching user messages as pending sources, deduplicated on
`external_id`.  Returns the state and the inserted count. -/
def fact_seed_from_chat_log_once (st : PState) (vantage : String) (limit : ℤ) :
    PState × ℕ :=
  if limit ≤ 0 then (st, 0)
  else
    let cands := (sortByCreatedDesc (st.chat_log.filter (seedCandidate st vantage))).take
      limit.toNat
    let step := fun (acc : List Source × ℕ) (cl : ChatLogRow) =>
      (acc.1 ++ [mkSeedSource st.now acc.2 cl], acc.2 + 1)
    let (fresh, nsid) := cands.foldl step ([], st.next_source_id)
    ({ st with sources := st.sources ++ fresh, next_source_id := nsid }, fresh.length)

/-- The minimum-`source_id` pending source (`ORDER BY source_id ASC LIMIT 1
FOR UPDATE SKIP LOCKED` for a single worker). -/
def selectPending (sources : List Source) : Option Source :=
  (sources.filter (fun s => s.status == SourceStatus.pending)).foldl
    (fun acc s =>
      match acc with
      | none => some s
      | some m => if s.source_id < m.source_id then some s else some m) none

/-- Apply `f` to the source row with the given id. -/
def updateSource (st : PState) (sid : ℕ) (f : Source → Source) : PState :=
  { st with sources := st.sources.map (fun s => if s.source_id = sid then f s else s) }

/-- `get_or_create_entity`: oldest match by `entity_id`, else a fresh row.
(Entity rows are only appended with increasing ids, so the first list match
is the `ORDER BY entity_id ASC LIMIT 1` row.) -/
def getOrCreateEntity (st : PState) (entity_type canonical_name : String) : ℕ × PState :=
  match st.entities.find? (fun e =>
      e.entity_type == entity_type && e.canonical_name == canonical_name) with
  | some e => (e.entity_id, st)
  | none =>
    (st.next_entity_id,
      { st with
        entities := st.entities ++ [{
          entity_id := st.next_entity_id
          entity_type := entity_type
          canonical_name := canonical_name }]
        next_entity_id := st.next_entity_id + 1 })

/-- `ensure_predicate` (`ON CONFLICT DO NOTHING`). -/
def ensurePredicate (st : PState) (predicate : String) (cardinality : String := "one") :
    PState :=
  if st.preds.any (fun p => p.predicate == predicate) then st
  else { st with preds := st.preds ++ [{ predicate := predicate, cardinality := cardinality }] }

/-- `upsert_claim_literal`: insert, or on a `canonical_key` conflict keep the
row and raise its confidence to the maximum of old and new. -/
def upsertClaimLiteral (st : PState) (subject : ℕ) (predicate v : String)
    (confidence : ℚ) : ℕ × PState :=
  let key := sha256Hex (canonicalKey subject predicate v)
  match st.claims.find? (fun c => c.canonical_key == key) with
  | some c =>
    (c.claim_id,
      { st with claims := st.claims.map (fun x =>
          if x.canonical_key = key then { x with confidence := max x.confidence confidence }
          else x) })
  | none =>
    (st.next_claim_id,
      { st with
        claims := st.claims ++ [{
          claim_id := st.next_claim_id
          subject_entity_id := subject
          predicate := predicate
          object_v := v
          confidence := confidence
          status := "active"
          canonical_key := key }]
        next_claim_id := st.next_claim_id + 1 })

/-- `add_evidence`. -/
def addEvidence (st : PState) (claim_id source_id : ℕ) (span_start span_end : Option ℕ)
    (snippet : Option String) (extraction_confidence : ℚ) : PState :=
  { st with evidence := st.evidence ++ [{
      claim_id := claim_id
      source_id := source_id
      span_start := span_start
      span_end := span_end
      snippet := snippet
      extractor := "kv_extractor"
      extractor_version := "v1"
      extraction_confidence := extraction_confidence }] }

/-- Python `str.strip()`. -/
def pyStrip (s : String) : String := String.mk (stripWs s.data)

/-- `fact_extract_once` from `fact_jobs.py`: claim one pending source, hash
its content, get-or-create the document entity, upsert the
`doc.content_sha256` claim (confidence 0.90) and one claim per parsed KV
fact (confidence 0.60) with evidence, and mark the source done. -/
def fact_extract_once (st : PState) (max_facts : ℕ := 50) : PState :=
  match selectPending st.sources with
  | none => st
  | some s =>
    let content_sha := sha256Hex s.content
    let st := updateSource st s.source_id (fun x =>
      { x with status := SourceStatus.processing, content_sha256 := some content_sha })
    let title := pyStrip s.title
    let doc_name := if title = "" then "source:" ++ toString s.source_id else title
    let (doc_eid, st) := getOrCreateEntity st "document" doc_name
    let st := ensurePredicate st "doc.content_sha256"
    let (c0, st) := upsertClaimLiteral st doc_eid "doc.content_sha256" content_sha (9/10)
    let st := addEvidence st c0 s.source_id none none none (9/10)
    let facts := parse_kv_facts s.content max_facts
    let st := facts.foldl (fun st f =>
      let st := ensurePredicate st f.predicate
      let (cid, st) := upsertClaimLiteral st doc_eid f.predicate f.value (6/10)
      addEvidence st cid s.source_id f.span_start f.span_end (some f.snippet) (6/10)) st
    updateSource st s.source_id (fun x => { x with status := SourceStatus.done })

/-- `_clamp01` from `card_jobs.py`. -/
def clamp01q (x : ℚ) : ℚ := if x < 0 then 0 else if 1 < x then 1 else x

/-- Modelled from the spec: the `vantage_card.card_head` column default for
`strength` (the CREATE TABLE migration is not under src/).  Scheme 1 of the
spec's end-to-end scenarios fixes it observationally: a first consolidation
must yield `strength ≈ 0.50`, and `new_strength = max(default,
strength_target)` with `strength_target = 0.50` at `total_n = 1` forces a
default of at most 0.50; the stored [0,1] midpoint 0.50 is taken. -/
def cardHeadDefaultStrength : ℚ := 1/2

/-- Modelled from the spec: the `vantage_card.card_head` column default for
`confidence` (the CREATE TABLE migration is not under src/).  Scheme 1 of
the spec's end-to-end scenarios fixes it exactly: a first consolidation must
yield `confidence ≈ 0.70`, and `new_confidence = 0.7·default + 0.3·0.70`
equals 0.70 only for a default of 0.70. -/
def cardHeadDefaultConfidence : ℚ := 7/10

/-- `_canonicalize_user_id` from `card_jobs.py`. -/
def canonicalizeUserId (st : PState) (vantage uid : String) : String :=
  let u := pyStrip uid
  if u = "" then "unknown"
  else
    match st.aliases.find? (fun a => a.vantage_id == vantage && a.alias_user_id == u) with
    | some a => if a.canonical_user_id = "" then u else a.canonical_user_id
    | none => u

/-- `_get_or_create_card` from `card_jobs.py`. -/
def getOrCreateCard (st : PState) (vantage kind topic_key : String) : ℕ × PState :=
  match st.cards.find? (fun c =>
      c.vantage_id == vantage && c.kind == kind && c.topic_key == topic_key) with
  | some c => (c.card_id, st)
  | none =>
    (st.next_card_id,
      { st with
        cards := st.cards ++ [{
          card_id := st.next_card_id
          vantage_id := vantage
          kind := kind
          topic_key := topic_key
          summary := ""
          payload := {}
          strength := cardHeadDefaultStrength
          confidence := cardHeadDefaultConfidence
          status := "active"
          updated_at := st.now }]
        next_card_id := st.next_card_id + 1 })

/-- `_write_revision`: append a revision chained to the newest one of the
card, then refresh the head's summary/payload and `updated_at`. -/
def writeRevision (st : PState) (cid : ℕ) (summary : String) (payload : CPayload)
    (reason : String) : PState :=
  let prev := (st.revisions.filter (fun r => r.card_id == cid)).foldl
    (fun acc r =>
      match acc with
      | none => some r.revision_id
      | some m => some (max m r.revision_id)) none
  { st with
    revisions := st.revisions ++ [{
      revision_id := st.next_revision_id
      card_id := cid
      prev_revision_id := prev
      summary := summary
      payload := payload
      reason := reason }]
    next_revision_id := st.next_revision_id + 1
    cards := st.cards.map (fun c =>
      if c.card_id = cid then
        { c with summary := summary, payload := payload, updated_at := st.now }
      else c) }

/-- `INSERT INTO card_link ... ON CONFLICT DO NOTHING` (uniqueness on
`(card_id, link_type, ref_id)`). -/
def linkInsert (st : PState) (cid : ℕ) (link_type ref_id note : String) : PState :=
  if st.links.any (fun l =>
      l.card_id == cid && l.link_type == link_type && l.ref_id == ref_id) then st
  else { st with links := st.links ++ [{
    card_id := cid, link_type := link_type, ref_id := ref_id, note := note }] }

/-- `counts[val] = int(counts.get(val, 0)) + 1` on the dict as an
insertion-ordered association list. -/
def bumpCount (counts : List (String × ℕ)) (val : String) : List (String × ℕ) :=
  if counts.any (fun p => p.1 == val) then
    counts.map (fun p => if p.1 = val then (p.1, p.2 + 1) else p)
  else counts ++ [(val, 1)]

/-- `sorted(counts.items(), key=lambda kv: (-kv[1], kv[0]))`. -/
def insertHist (p : String × ℕ) : List (String × ℕ) → List (String × ℕ)
  | [] => [p]
  | q :: qs =>
    if q.2 > p.2 || (q.2 = p.2 && Decidable.decide (q.1 ≤ p.1)) then q :: insertHist p qs
    else p :: q :: qs

def sortHist : List (String × ℕ) → List (String × ℕ)
  | [] => []
  | p :: ps => insertHist p (sortHist ps)

/-- `", ".join(f"{k}Ã—{n}" ...)` (the separator glyphs are the ones in the
source). -/
def histString (top : List (String × ℕ)) : String :=
  String.intercalate ", " (top.map (fun p => p.1 ++ "Ã—" ++ toString p.2))

/-- The attr keys ignored for preference cards. -/
def ignoredKeys : List String :=
  ["return_exactly", "say_exactly", "seedmemory", "seed_note", "threadctx", "audit"]

/-- `ORDER BY s.source_id DESC` over the unconsumed done sources. -/
def insertBySourceIdDesc (s : Source) : List Source → List Source
  | [] => [s]
  | d :: ds =>
    if s.source_id ≤ d.source_id then d :: insertBySourceIdDesc s ds
    else s :: d :: ds

def sortBySourceIdDesc : List Source → List Source
  | [] => []
  | s :: ss => insertBySourceIdDesc s (sortBySourceIdDesc ss)

/-- `ORDER BY predicate ASC, claim_id ASC` over the document's claims. -/
def insertClaimAsc (c : ClaimRow) : List ClaimRow → List ClaimRow
  | [] => [c]
  | d :: ds =>
    if d.predicate < c.predicate
        || (d.predicate = c.predicate && d.claim_id ≤ c.claim_id) then
      d :: insertClaimAsc c ds
    else c :: d :: ds

def sortClaimsAsc : List ClaimRow → List ClaimRow
  | [] => []
  | c :: cs => insertClaimAsc c (sortClaimsAsc cs)

/-- `pred.replace("attr.", "", 1)` on a predicate the `LIKE 'attr.%'` filter
admitted (the first occurrence is the prefix). -/
def attrKey (pred : String) : String := String.mk (pred.data.drop 5)

/-- `ORDER BY entity_id DESC LIMIT 1` over matching document entities. -/
def latestDocEntity (st : PState) (title : String) : Option ℕ :=
  (st.entities.filter (fun e =>
    e.entity_type == "document" && e.canonical_name == title)).foldl
    (fun acc e =>
      match acc with
      | none => some e.entity_id
      | some m => some (max m e.entity_id)) none

/-- The per-claim body of the consolidation loop. -/
def consolidateClaim (vantage : String) (r : Source) (chat_log_id : Option String)
    (alias_user user : String) (st : PState) (c : ClaimRow) : PState :=
  let ak := attrKey c.predicate
  if ignoredKeys.contains ak then st
  else
    let val := pyStrip c.object_v
    let kind := if ak = "audit" then "audit" else "pref"
    let topic_key := "user/" ++ user ++ "/" ++ kind ++ "/" ++ ak
    let (cid, st) := getOrCreateCard st vantage kind topic_key
    match st.cards.find? (fun h => h.card_id == cid) with
    | none => st
    | some head =>
      let payload := head.payload
      let cur_strength := head.strength
      let cur_confidence := head.confidence
      let prev_value := payload.current_value
      let counts := bumpCount payload.value_counts val
      let payload2 := { payload with
        mode := some "card_consolidate_kv_v2"
        source_id_last := some r.source_id
        chat_log_id_last := chat_log_id
        user_id := some user
        user_id_alias := some alias_user
        attr_key := some ak
        current_value := some val
        value_counts := counts
        last_seen_at := some (toString r.created_at) }
      let summary := kind ++ "/" ++ ak ++ ": " ++ val ++ "\nseen: "
        ++ histString ((sortHist counts).take 5)
      let st := writeRevision st cid summary payload2 "consolidate_kv_v2"
      let total_n0 := (counts.map Prod.snd).sum
      let top_n0 := counts.foldl (fun m p => max m p.2) 0
      let total_n := if total_n0 = 0 then 1 else total_n0
      let top_n := if total_n0 = 0 then 1 else top_n0
      let p_top : ℚ := (top_n : ℚ) / (total_n : ℚ)
      let strength_target := clamp01q (1/2 + (35/100) * min 1 (max 0 (((total_n : ℚ) - 1) / 10)))
      let new_strength := max cur_strength strength_target
      let conf_target := clamp01q (3/10 + (4/10) * p_top
        + (3/10) * min 1 (max 0 (((total_n : ℚ) - 1) / 5)))
      let nc0 := clamp01q ((7/10) * cur_confidence + (3/10) * conf_target)
      let new_confidence :=
        match prev_value with
        | some pv =>
          if pyStrip pv ≠ val then clamp01q (min nc0 (cur_confidence * (85/100))) else nc0
        | none => nc0
      let st :=
        if (1/1000000 : ℚ) < |new_strength - cur_strength|
            ∨ (1/1000000 : ℚ) < |new_confidence - cur_confidence| then
          { st with cards := st.cards.map (fun h =>
              if h.card_id = cid then
                { h with strength := new_strength, confidence := new_confidence }
              else h) }
        else st
      let st := linkInsert st cid "source" (toString r.source_id) "vantage_fact.source"
      let st :=
        match chat_log_id with
        | some cl => if cl ≠ "" then linkInsert st cid "chat_log" cl "public.chat_log" else st
        | none => st
      linkInsert st cid "claim" (toString c.claim_id) "vantage_fact.claim"

/-- The per-source body of the consolidation loop. -/
def consolidateSource (vantage : String) (cursor_id : ℕ) (st : PState) (r : Source) :
    PState :=
  let chat_log_id : Option String :=
    match r.metadata with
    | some m => m.chat_log_id
    | none => none
  let alias_user :=
    match r.metadata with
    | some m => if m.user_id = "" then "unknown" else m.user_id
    | none => "unknown"
  let user := canonicalizeUserId st vantage alias_user
  let title := pyStrip (if r.title = "" then "source:" ++ toString r.source_id else r.title)
  match latestDocEntity st title with
  | none => linkInsert st cursor_id "source" (toString r.source_id) "skip:no_doc_entity"
  | some doc_eid =>
    let claims := sortClaimsAsc (st.claims.filter (fun c =>
      c.subject_entity_id == doc_eid && c.status == "active"
        && PyStr.startsWith "attr.".data c.predicate.data))
    if claims.isEmpty then
      linkInsert st cursor_id "source" (toString r.source_id) "skip:no_attr_claims"
    else
      let has_effective := claims.any (fun c => !(ignoredKeys.contains (attrKey c.predicate)))
      let note := if has_effective then "ok" else "skip:ignored_attr_keys"
      let st := linkInsert st cursor_id "source" (toString r.source_id) note
      claims.foldl (consolidateClaim vantage r chat_log_id alias_user user) st

/-- Distinct elements in first-seen order. -/
def dedupKeep (l : List String) : List String :=
  l.foldl (fun acc n => if acc.contains n then acc else acc ++ [n]) []

/-- The cursor-observability block at the end of
`card_consolidate_from_kv_once` (runs only when new sources were read). -/
def cursorUpdate (st : PState) (cursor_id : ℕ) (rows : List Source)
    (limit_sources : ℤ) : PState :=
  let max_source_id := rows.foldl (fun m r => max m r.source_id) 0
  let clinks := st.links.filter (fun l =>
    l.card_id == cursor_id && l.link_type == "source")
  let note_counts := sortHist ((dedupKeep (clinks.map (fun l => l.note))).map
    (fun n => (n, (clinks.filter (fun l => l.note == n)).length)))
  let total_links := (note_counts.map Prod.snd).sum
  let ok_n := ((note_counts.find? (fun p => p.1 == "ok")).map Prod.snd).getD 0
  let skip_n := total_links - ok_n
  let done_n := (st.sources.filter (fun s =>
    s.source_type == "chat_log" && s.status == SourceStatus.done)).length
  match st.cards.find? (fun h => h.card_id == cursor_id) with
  | none => st
  | some head =>
    let payload2 := { head.payload with
      mode := some "consolidate_kv_v2_cursor"
      cursor_updated_at := some (toString st.now)
      cursor_done_chatlog_sources := some done_n
      cursor_link_sources := some total_links
      cursor_note_counts := note_counts
      cursor_last_batch := some (rows.length, max_source_id, limit_sources) }
    let summary := "cursor: done=" ++ toString done_n ++ " linked=" ++ toString total_links
      ++ " ok=" ++ toString ok_n ++ " skip=" ++ toString skip_n
      ++ " last_source_id=" ++ toString max_source_id
    { st with cards := st.cards.map (fun h =>
        if h.card_id = cursor_id then
          { h with summary := summary, payload := payload2, updated_at := st.now }
        else h) }

/-- `card_consolidate_from_kv_once` from `card_jobs.py` (v2 semantics). -/
def card_consolidate_from_kv_once (st : PState) (vantage : String) (limit_sources : ℤ) :
    PState :=
  if limit_sources ≤ 0 then st
  else
    let (cursor_id, st) := getOrCreateCard st vantage "system" "consolidate_kv_v2_cursor"
    let rows := (sortBySourceIdDesc (st.sources.filter (fun s =>
      s.status == SourceStatus.done && s.source_type == "chat_log"
        && !(st.links.any (fun l =>
          l.card_id == cursor_id && l.link_type == "source"
            && l.ref_id == toString s.source_id))))).take limit_sources.toNat
    let st := rows.foldl (consolidateSource vantage cursor_id) st
    if rows.isEmpty then st else cursorUpdate st cursor_id rows limit_sources

end Fact

namespace Scenarios

/-- The C2 input: a fresh store holding one user chat message
`"Coffee: yes\nMood: calm"`. -/
def c2Start : Fact.PState := {
  now := 5000
  chat_log := [{
    id := 1
    user_id := "u1"
    thread_id := none
    vantage_id := some "default"
    created_at := 100
    text := "Coffee: yes\nMood: calm"
    source := "frontend/chat:user" }]
  sources := []
  next_source_id := 1
  entities := []
  next_entity_id := 1
  preds := []
  claims := []
  next_claim_id := 1
  evidence := []
  cards := []
  next_card_id := 1
  revisions := []
  next_revision_id := 1
  links := []
  aliases := [] }

/-- C2 after one seed pass, one extract pass and one consolidate pass. -/
def c2End : Fact.PState :=
  Fact.card_consolidate_from_kv_once
    (Fact.fact_extract_once (Fact.fact_seed_from_chat_log_once c2Start "default" 5).1 50)
    "default" 10

/-- A store that already holds the seeded source of chat_log row 1,
plus that chat_log row itself (for the C7 witness). -/
def c7State : Fact.PState := {
  c2Start with
  sources := [{
    source_id := 1
    source_type := "chat_log"
    external_id := "chat_log:1"
    title := "chat_log:user:default:1"
    content := "Coffee: yes\nMood: calm"
    content_sha256 := none
    metadata := none
    status := Fact.SourceStatus.pending
    created_at := 200 }]
  next_source_id := 2 }

/-- A card whose strength 1.000 and 59-minute-old decay stamp exercise the
skip branch of `card_decay_once` (C5 counterexample; the default
`min_interval_minutes` is 60). -/
def c5Card : Decay.Card := {
  card_id := 7
  vantage_id := "default"
  kind := "pref"
  topic_key := "user/u1/pref/coffee"
  summary := "pref/coffee: yes"
  strength := 1
  confidence := 1/2
  status := "active"
  updated_at := 0
  payload := { last_decay_at := some 996460, rest := "rest" } }

/-- The clock for the C5 counterexample: 3540 s (59 min) after the card's
`last_decay_at`. -/
def c5Now : ℤ := 1000000

/-- The C5 witness card: strength 0.80, no signals, decay stamp 45 days old
at clock 3888000. -/
def c5WitnessCard : Decay.Card := {
  card_id := 8
  vantage_id := "default"
  kind := "pref"
  topic_key := "user/u1/pref/mood"
  summary := "pref/mood: calm"
  strength := 4/5
  confidence := 7/10
  status := "active"
  updated_at := 0
  payload := { last_decay_at := some 0, rest := "" } }

/-- A card whose decay stamp is 30 minutes old (C6 counterexample: selected
but skipped, so `payload.last_decay_at` is not rewritten). -/
def c6Card : Decay.Card := {
  card_id := 9
  vantage_id := "default"
  kind := "pref"
  topic_key := "user/u1/pref/tea"
  summary := "pref/tea: no"
  strength := 3/5
  confidence := 1/2
  status := "active"
  updated_at := 0
  payload := { last_decay_at := some 998200, rest := "r" } }

/-- The C6 witness card: decay stamp 2 days old at clock 172800. -/
def c6WitnessCard : Decay.Card := {
  card_id := 10
  vantage_id := "default"
  kind := "audit"
  topic_key := "user/u1/audit/x"
  summary := "s"
  strength := 1/2
  confidence := 1/2
  status := "active"
  updated_at := 0
  payload := { last_decay_at := some 0, rest := "keep" } }

/-- A claimable heartbeat job (C3 witness). -/
def qJob : Initiator.Job := {
  job_id := 1
  vantage_id := "default"
  job_type := "heartbeat"
  payload := "{}"
  priority := 100
  status := Initiator.JobStatus.queued
  attempts := 0
  max_attempts := 3
  scheduled_at := 10
  locked_by := none
  locked_at := none
  last_error := none }

/-- A queue holding just that job (C3 witness). -/
def qState : Initiator.QState := {
  now := 50
  jobs := [qJob]
  runs := []
  next_run_id := 1 }

/-- A running job, attempts already bumped to 1 of 3 (C4 witness). -/
def qFailJob : Initiator.Job := {
  job_id := 1
  vantage_id := "default"
  job_type := "heartbeat"
  payload := "{}"
  priority := 100
  status := Initiator.JobStatus.running
  attempts := 1
  max_attempts := 3
  scheduled_at := 10
  locked_by := some "w1"
  locked_at := some 50
  last_error := none }

/-- The open run of that job (C4 witness). -/
def qFailRun : Initiator.JobRun := {
  run_id := 1
  job_id := 1
  worker_id := "w1"
  before_drives := "drv"
  finished_at := none
  after_drives := none
  outcome := none
  error := none }

/-- The queue during the failing run (C4 witness). -/
def qFailState : Initiator.QState := {
  now := 80
  jobs := [qFailJob]
  runs := [qFailRun]
  next_run_id := 2 }

/-- A store holding one singleton card of user `u1` (C9 witness). -/
def c9Points : List Cards.Point :=
  [{ id := "11111111-1111-1111-1111-111111111111"
     user_id := "u1"
     kind := "gravity_profile"
     topic_key := "__singleton__" }]

end Scenarios

namespace Initiator

theorem keyLe_refl (a : Job) : keyLe a a = true := by
  simp [keyLe]

theorem keyLe_total (a b : Job) : keyLe a b = true ∨ keyLe b a = true := by
  simp only [keyLe, Bool.or_eq_true, Bool.and_eq_true, decide_eq_true_eq, beq_iff_eq]
  omega

theorem keyLe_trans {a b c : Job} (h1 : keyLe a b = true) (h2 : keyLe b c = true) :
    keyLe a c = true := by
  simp only [keyLe, Bool.or_eq_true, Bool.and_eq_true, decide_eq_true_eq, beq_iff_eq] at *
  omega

theorem selectMin_eq_none : ∀ {l : List Job}, selectMin l = none ↔ l = [] := by
  intro l
  cases l with
  | nil => simp [selectMin]
  | cons a as =>
    simp only [selectMin]
    cases hs : selectMin as <;> simp
    split <;> simp

theorem selectMin_mem {l : List Job} : ∀ {j : Job}, selectMin l = some j → j ∈ l := by
  induction l with
  | nil => intro j h; simp [selectMin] at h
  | cons a as ih =>
    intro j h
    simp only [selectMin] at h
    cases hs : selectMin as with
    | none => rw [hs] at h; simp at h; simp [h]
    | some m =>
      rw [hs] at h
      by_cases hk : keyLe a m = true
      · simp [hk] at h; simp [h]
      · simp [hk] at h; exact List.mem_cons_of_mem _ (h ▸ ih hs)

theorem selectMin_le {l : List Job} : ∀ {j : Job}, selectMin l = some j →
    ∀ k ∈ l, keyLe j k = true := by
  induction l with
  | nil => intro j h; simp [selectMin] at h
  | cons a as ih =>
    intro j h k hk
    simp only [selectMin] at h
    cases hs : selectMin as with
    | none =>
      rw [hs] at h; simp at h
      have has : as = [] := selectMin_eq_none.mp hs
      subst has
      rcases List.mem_singleton.mp hk with rfl
      rw [← h]
      exact keyLe_refl k
    | some m =>
      rw [hs] at h
      by_cases hkm : keyLe a m = true
      · simp [hkm] at h
        rcases List.mem_cons.mp hk with heq | hk2
        · subst heq; rw [← h]; exact keyLe_refl k
        · rw [← h]; exact keyLe_trans hkm (ih hs k hk2)
      · simp [hkm] at h
        rw [h] at hs hkm
        rcases List.mem_cons.mp hk with heq | hk2
        · subst heq
          rcases keyLe_total k j with h1 | h2
          · exact absurd h1 hkm
          · exact h2
        · exact ih hs k hk2

end Initiator

/-- C3: claim_one_job returns nothing and leaves the state alone once the running count for the vantage reaches max_running_jobs; below the cap, whenever selectMin picks a job j from the eligibility filter (queued, due, attempts below max, allowed type), j is eligible and minimal under (priority asc, scheduled_at asc, job_id asc), and the result marks exactly j running with attempts bumped, locked_by and locked_at set to the worker and now, last_error cleared, and appends exactly one job_run carrying before_drives. -/
theorem C3_claim_one_job (st : Initiator.QState) (vantage worker_id before_drives : String)
    (allowed_job_types : List String) (max_running_jobs : ℤ) :
    (max_running_jobs ≤ (Initiator.runningCount st vantage : ℤ) →
      Initiator.claim_one_job st vantage worker_id before_drives allowed_job_types
        max_running_jobs = (none, st))
    ∧ ((Initiator.runningCount st vantage : ℤ) < max_running_jobs →
      ∀ j, Initiator.selectMin (Initiator.eligibleJobs st vantage
          (allowed_job_types.filter Initiator.nonBlank)) = some j →
        j ∈ Initiator.eligibleJobs st vantage (allowed_job_types.filter Initiator.nonBlank)
        ∧ (∀ k ∈ Initiator.eligibleJobs st vantage
            (allowed_job_types.filter Initiator.nonBlank), Initiator.keyLe j k = true)
        ∧ Initiator.claim_one_job st vantage worker_id before_drives allowed_job_types
            max_running_jobs =
          (some (j.job_id, j.job_type, j.payload, st.next_run_id),
            { st with
              jobs := st.jobs.map (fun x =>
                if x.job_id = j.job_id then
                  { x with
                    status := Initiator.JobStatus.running
                    locked_by := some worker_id
                    locked_at := some st.now
                    attempts := x.attempts + 1
                    last_error := none }
                else x)
              runs := st.runs ++ [{
                run_id := st.next_run_id
                job_id := j.job_id
                worker_id := worker_id
                before_drives := before_drives
                finished_at := none
                after_drives := none
                outcome := none
                error := none }]
              next_run_id := st.next_run_id + 1 })) := by
  constructor
  · intro hcap
    unfold Initiator.claim_one_job
    dsimp only
    split
    · rfl
    · rfl
  · intro hcap j hsel
    refine ⟨Initiator.selectMin_mem hsel, Initiator.selectMin_le hsel, ?_⟩
    have hne : Initiator.eligibleJobs st vantage
        (allowed_job_types.filter Initiator.nonBlank) ≠ [] := by
      intro he
      rw [he] at hsel
      simp [Initiator.selectMin] at hsel
    have hmem := Initiator.selectMin_mem hsel
    have hall : (allowed_job_types.filter Initiator.nonBlank) ≠ [] := by
      intro ha
      apply hne
      simp [Initiator.eligibleJobs, Initiator.eligible, ha]
    unfold Initiator.claim_one_job
    dsimp only
    rw [if_neg (by simpa using hall), if_neg (by omega), hsel]

/-- C4: after finish_job_failure on a running job, the job row keyed by jid has locked_by and locked_at cleared and last_error set to the truncated error text; if attempts < max_attempts it is requeued with scheduled_at = now + attempts * 10 (linear backoff), otherwise it is marked failed with scheduled_at unchanged; and the run row keyed by rid is closed at now with after_drives and the error text. -/
theorem C4_finish_job_failure (st : Initiator.QState) (jid rid : ℕ)
    (after_drives error : String) (j : Initiator.Job) (r : Initiator.JobRun)
    (hj : j ∈ st.jobs) (hjid : j.job_id = jid)
    (hrun : j.status = Initiator.JobStatus.running)
    (hr : r ∈ st.runs) (hrid : r.run_id = rid) :
    ∃ j' ∈ (Initiator.finish_job_failure st jid rid after_drives error).jobs,
      j'.job_id = jid
      ∧ j'.locked_by = none
      ∧ j'.locked_at = none
      ∧ j'.last_error = some (Initiator.errTrunc error)
      ∧ (j.attempts < j.max_attempts →
          j'.status = Initiator.JobStatus.queued
          ∧ j'.scheduled_at = st.now + j.attempts * 10)
      ∧ (j.max_attempts ≤ j.attempts →
          j'.status = Initiator.JobStatus.failed
          ∧ j'.scheduled_at = j.scheduled_at)
      ∧ ∃ r' ∈ (Initiator.finish_job_failure st jid rid after_drives error).runs,
          r'.run_id = rid
          ∧ r'.finished_at = some st.now
          ∧ r'.after_drives = some after_drives
          ∧ r'.outcome = none
          ∧ r'.error = some (Initiator.errTrunc error) := by
  refine ⟨?_, ?_, ?_⟩
  · exact { j with
      status := if j.attempts < j.max_attempts then Initiator.JobStatus.queued
        else Initiator.JobStatus.failed
      scheduled_at := if j.attempts < j.max_attempts then st.now + j.attempts * 10
        else j.scheduled_at
      locked_by := none
      locked_at := none
      last_error := some (Initiator.errTrunc error) }
  · unfold Initiator.finish_job_failure
    dsimp only
    refine List.mem_map.mpr ⟨j, hj, ?_⟩
    rw [if_pos hjid]
  · refine ⟨hjid, rfl, rfl, rfl, ?_, ?_, ?_⟩
    · intro hlt
      constructor
      · simp [if_pos hlt]
      · simp [if_pos hlt]
    · intro hge
      constructor
      · simp [if_neg (by omega : ¬ j.attempts < j.max_attempts)]
      · simp [if_neg (by omega : ¬ j.attempts < j.max_attempts)]
    · refine ⟨{ r with
        finished_at := some st.now
        after_drives := some after_drives
        outcome := none
        error := some (Initiator.errTrunc error) }, ?_, hrid, rfl, rfl, rfl, rfl⟩
      unfold Initiator.finish_job_failure
      dsimp only
      refine List.mem_map.mpr ⟨r, hr, ?_⟩
      rw [if_pos hrid]

namespace Decay

theorem mem_insertByUpdated {a c : Card} : ∀ {l : List Card},
    a ∈ insertByUpdated c l ↔ a = c ∨ a ∈ l := by
  intro l
  induction l with
  | nil => simp [insertByUpdated]
  | cons d ds ih =>
    simp only [insertByUpdated]
    split
    · simp only [List.mem_cons, ih]
      tauto
    · simp [List.mem_cons]

theorem mem_sortByUpdated {a : Card} : ∀ {l : List Card},
    a ∈ sortByUpdated l ↔ a ∈ l := by
  intro l
  induction l with
  | nil => simp [sortByUpdated]
  | cons c cs ih =>
    simp only [sortByUpdated, mem_insertByUpdated, ih, List.mem_cons]

theorem selectCards_subset {vantage : String} {limit : ℤ} {cards : List Card} {c : Card}
    (h : c ∈ selectCards vantage limit cards) : c ∈ cards := by
  unfold selectCards at h
  have h2 := List.mem_of_mem_take h
  have h3 := mem_sortByUpdated.mp h2
  exact List.mem_of_mem_filter h3

end Decay

namespace Decay

theorem sigSum_nil (types : List String) : sigSum [] types = 0 := rfl

theorem decayCard_no_signals (vantage : String) (hl : ℚ) (sw : ℤ) (mid : ℚ) (now : ℤ)
    (signals : List Signal) (c : Card)
    (hsig : matchingSignals vantage sw now (c.payload.last_decay_at.getD c.updated_at)
      signals c = [])
    (href : c.payload.last_decay_at.getD c.updated_at ≤ now) :
    (((now - c.payload.last_decay_at.getD c.updated_at : ℤ) : ℚ) / 86400 < mid →
      decayCard vantage hl sw mid now signals c = c)
    ∧ (mid ≤ ((now - c.payload.last_decay_at.getD c.updated_at : ℤ) : ℚ) / 86400 →
      decayCard vantage hl sw mid now signals c = { c with
        strength := round3 (clamp01R ((c.strength : ℝ)
          * (1/2 : ℝ) ^ (((((now - c.payload.last_decay_at.getD c.updated_at : ℤ) : ℚ)
              / 86400 : ℚ) : ℝ) / ((hl : ℚ) : ℝ))))
        confidence := round3 (clamp01R ((c.confidence : ℝ)
          * (1/2 : ℝ) ^ (((((now - c.payload.last_decay_at.getD c.updated_at : ℤ) : ℚ)
              / 86400 : ℚ) : ℝ) / ((max 180 (hl * 4) : ℚ) : ℝ))))
        payload := { last_decay_at := some now, rest := c.payload.rest } }) := by
  have hnn : ¬ ((( (now - c.payload.last_decay_at.getD c.updated_at : ℤ) : ℚ) / 86400) < 0) := by
    push_neg
    apply div_nonneg _ (by norm_num)
    exact_mod_cast Int.sub_nonneg.mpr href
  constructor
  · intro hdt
    simp only [decayCard, hsig, sigSum_nil]
    rw [if_neg hnn]
    rw [if_pos (show (!Decidable.decide ((0:ℚ) < 0 + 0 + 0)
      && Decidable.decide (((now - c.payload.last_decay_at.getD c.updated_at : ℤ) : ℚ)
        / 86400 < mid)) = true by simp; push_cast at hdt ⊢; exact hdt)]
  · intro hdt
    simp only [decayCard, hsig, sigSum_nil]
    rw [if_neg hnn]
    rw [if_neg (show ¬ ((!Decidable.decide ((0:ℚ) < 0 + 0 + 0)
      && Decidable.decide (((now - c.payload.last_decay_at.getD c.updated_at : ℤ) : ℚ)
        / 86400 < mid)) = true) by simp; push_cast at hdt ⊢; exact hdt)]
    rw [if_pos (Or.inr (Or.inr (Or.inr hdt)))]
    simp [min_def]
    norm_num

end Decay

namespace Decay

theorem decayCard_skip (vantage : String) (hl : ℚ) (sw : ℤ) (mid : ℚ) (now : ℤ)
    (signals : List Signal) (c : Card)
    (href : c.payload.last_decay_at.getD c.updated_at ≤ now)
    (hS : ¬ (0 < sigSum (matchingSignals vantage sw now
        (c.payload.last_decay_at.getD c.updated_at) signals c) ["reward"]
      + sigSum (matchingSignals vantage sw now
        (c.payload.last_decay_at.getD c.updated_at) signals c) ["punish", "correction"]
      + sigSum (matchingSignals vantage sw now
        (c.payload.last_decay_at.getD c.updated_at) signals c) ["use"]))
    (hdt : ((now - c.payload.last_decay_at.getD c.updated_at : ℤ) : ℚ) / 86400 < mid) :
    decayCard vantage hl sw mid now signals c = c := by
  have hnn : ¬ ((((now - c.payload.last_decay_at.getD c.updated_at : ℤ) : ℚ) / 86400) < 0) := by
    push_neg
    apply div_nonneg _ (by norm_num)
    exact_mod_cast Int.sub_nonneg.mpr href
  simp only [decayCard]
  rw [if_neg hnn]
  rw [if_pos (show _ = true by simp only [Bool.and_eq_true, Bool.not_eq_true',
    decide_eq_false_iff_not, decide_eq_true_eq]; exact ⟨hS, hdt⟩)]

theorem decayCard_update (vantage : String) (hl : ℚ) (sw : ℤ) (mid : ℚ) (now : ℤ)
    (signals : List Signal) (c : Card)
    (href : c.payload.last_decay_at.getD c.updated_at ≤ now)
    (hcond : (0 < sigSum (matchingSignals vantage sw now
        (c.payload.last_decay_at.getD c.updated_at) signals c) ["reward"]
      + sigSum (matchingSignals vantage sw now
        (c.payload.last_decay_at.getD c.updated_at) signals c) ["punish", "correction"]
      + sigSum (matchingSignals vantage sw now
        (c.payload.last_decay_at.getD c.updated_at) signals c) ["use"])
      ∨ mid ≤ ((now - c.payload.last_decay_at.getD c.updated_at : ℤ) : ℚ) / 86400) :
    ∃ s k : ℚ, decayCard vantage hl sw mid now signals c = { c with
      strength := s
      confidence := k
      payload := { last_decay_at := some now, rest := c.payload.rest } } := by
  have hnn : ¬ ((((now - c.payload.last_decay_at.getD c.updated_at : ℤ) : ℚ) / 86400) < 0) := by
    push_neg
    apply div_nonneg _ (by norm_num)
    exact_mod_cast Int.sub_nonneg.mpr href
  simp only [decayCard]
  rw [if_neg hnn]
  rw [if_neg (show ¬ (_ = true) by
    simp only [Bool.and_eq_true, Bool.not_eq_true', decide_eq_false_iff_not,
      decide_eq_true_eq, not_and, not_lt]
    intro hs
    rcases hcond with h | h
    · exact absurd h (not_lt.mpr hs)
    · exact h)]
  rw [if_pos (show _ by
    rcases hcond with h | h
    · exact Or.inr (Or.inr (Or.inl (by simp [h])))
    · exact Or.inr (Or.inr (Or.inr h)))]
  exact ⟨_, _, rfl⟩

end Decay

namespace Decay

theorem decayCard_mem_run (vantage : String) (limit : ℤ) (hl : ℚ) (sw mi now : ℤ)
    (cards : List Card) (signals : List Signal) (c : Card)
    (hlim : 0 < limit) (hhl : 0 < hl) (hsw : 0 < sw) (hmi : 0 ≤ mi)
    (hsel : c ∈ selectCards vantage limit cards) :
    decayCard vantage hl sw ((mi : ℚ) / 1440) now signals c ∈
      card_decay_once vantage limit hl sw mi now cards signals := by
  unfold card_decay_once
  rw [if_neg (by omega)]
  simp only [if_neg (not_le.mpr hhl), if_neg (not_le.mpr (by exact_mod_cast hsw)),
    if_neg (not_lt.mpr hmi)]
  refine List.mem_map.mpr ⟨c, selectCards_subset hsel, ?_⟩
  rw [if_pos (List.any_eq_true.mpr ⟨c, hsel, by simp⟩)]

end Decay

/-- C5: a selected card with no matching signals is mapped by decayCard in the decay run; when at least min_interval_minutes have elapsed since the decay reference the new strength is round3 (clamp01 (old * 0.5 ^ (dt_days / half_life_days))), and when less has elapsed the card is returned entirely unchanged, so a re-run with 0 elapsed days changes nothing but the unconditional formula of the claim fails below the interval threshold. -/
theorem C5_decay_strength (vantage : String) (limit : ℤ) (hl : ℚ) (sw mi now : ℤ)
    (cards : List Decay.Card) (signals : List Decay.Signal) (c : Decay.Card)
    (hlim : 0 < limit) (hhl : 0 < hl) (hsw : 0 < sw) (hmi : 0 ≤ mi)
    (hsel : c ∈ Decay.selectCards vantage limit cards)
    (href : c.payload.last_decay_at.getD c.updated_at ≤ now)
    (hsig : Decay.matchingSignals vantage sw now
      (c.payload.last_decay_at.getD c.updated_at) signals c = []) :
    Decay.decayCard vantage hl sw ((mi : ℚ) / 1440) now signals c ∈
      Decay.card_decay_once vantage limit hl sw mi now cards signals
    ∧ ((mi : ℚ) / 1440 ≤ ((now - c.payload.last_decay_at.getD c.updated_at : ℤ) : ℚ) / 86400 →
        (Decay.decayCard vantage hl sw ((mi : ℚ) / 1440) now signals c).strength
          = Decay.round3 (Decay.clamp01R ((c.strength : ℝ)
            * (1/2 : ℝ) ^ ((((((now - c.payload.last_decay_at.getD c.updated_at : ℤ) : ℚ)
                / 86400 : ℚ) : ℝ)) / ((hl : ℚ) : ℝ)))))
    ∧ (((now - c.payload.last_decay_at.getD c.updated_at : ℤ) : ℚ) / 86400 < (mi : ℚ) / 1440 →
        Decay.decayCard vantage hl sw ((mi : ℚ) / 1440) now signals c = c) := by
  refine ⟨Decay.decayCard_mem_run vantage limit hl sw mi now cards signals c
      hlim hhl hsw hmi hsel, ?_, ?_⟩
  · intro hdt
    rw [(Decay.decayCard_no_signals vantage hl sw ((mi : ℚ) / 1440) now signals c
      hsig href).2 hdt]
  · intro hdt
    exact (Decay.decayCard_no_signals vantage hl sw ((mi : ℚ) / 1440) now signals c
      hsig href).1 hdt

/-- C5 witness: a card with strength 0.80, no signals and half_life_days = 45 decays to strength 0.40 after 45 elapsed days. -/
theorem C5_witness :
    (Decay.decayCard "default" 45 180 (((60 : ℤ) : ℚ) / 1440) 3888000 []
        Scenarios.c5WitnessCard).strength
      = 2/5 := by
  have h := (C5_decay_strength "default" 50 45 180 60 3888000 [Scenarios.c5WitnessCard] []
    Scenarios.c5WitnessCard (by norm_num) (by norm_num) (by norm_num) (by norm_num)
    (by with_unfolding_all decide) (by with_unfolding_all decide) rfl).2.1
    (by with_unfolding_all decide)
  rw [h]
  have e1 : ((3888000 - Scenarios.c5WitnessCard.payload.last_decay_at.getD
      Scenarios.c5WitnessCard.updated_at : ℤ) : ℚ) / 86400 = (45 : ℚ) := by
    with_unfolding_all decide
  have e2 : (Scenarios.c5WitnessCard.strength : ℝ) = 4/5 := by
    norm_num [Scenarios.c5WitnessCard]
  rw [e1, e2]
  have e3 : (((45 : ℚ) : ℝ)) / (((45 : ℚ) : ℝ)) = 1 := by push_cast; norm_num
  rw [e3, Real.rpow_one]
  have e4 : (4/5 : ℝ) * (1/2) = 2/5 := by norm_num
  rw [e4]
  unfold Decay.clamp01R
  rw [if_neg (by norm_num), if_neg (by norm_num)]
  unfold Decay.round3
  rw [show (2/5 : ℝ) * 1000 = ((400 : ℤ) : ℝ) by norm_num, round_intCast]
  norm_num

/-- C5 counterexample: a card with strength 1.0 whose decay reference lies 59 minutes in the past is left unchanged by a decay run with min_interval_minutes = 60 (the skip branch), although the formula of the claim would lower its strength to 0.999. -/
theorem C5_counterexample :
    Decay.card_decay_once "default" 50 45 180 60 Scenarios.c5Now [Scenarios.c5Card] []
      = [Scenarios.c5Card]
    ∧ Scenarios.c5Card.strength = 1
    ∧ Decay.round3 (Decay.clamp01R ((Scenarios.c5Card.strength : ℝ)
        * (1/2 : ℝ) ^ (((((Scenarios.c5Now - Scenarios.c5Card.payload.last_decay_at.getD
              Scenarios.c5Card.updated_at : ℤ) : ℚ) / 86400 : ℚ) : ℝ)
            / ((45 : ℚ) : ℝ))))
      ≠ Scenarios.c5Card.strength := by
  have hskip : Decay.decayCard "default" 45 180 (((60 : ℤ) : ℚ) / 1440) Scenarios.c5Now []
      Scenarios.c5Card = Scenarios.c5Card := by
    apply Decay.decayCard_skip
    · decide
    · simp [Decay.matchingSignals, Decay.sigSum]
    · with_unfolding_all decide
  have hrun : Decay.card_decay_once "default" 50 45 180 60 Scenarios.c5Now [Scenarios.c5Card] []
      = [Scenarios.c5Card] := by
    unfold Decay.card_decay_once
    rw [if_neg (by norm_num : ¬ (50 : ℤ) ≤ 0)]
    simp only [if_neg (show ¬ (45 : ℚ) ≤ 0 by norm_num),
      if_neg (show ¬ (180 : ℤ) ≤ 0 by norm_num),
      if_neg (show ¬ (60 : ℤ) < 0 by norm_num)]
    simp only [List.map_cons, List.map_nil]
    rw [if_pos (by decide), hskip]
  refine ⟨hrun, rfl, ?_⟩
  have hx : (((((Scenarios.c5Now - Scenarios.c5Card.payload.last_decay_at.getD
        Scenarios.c5Card.updated_at : ℤ) : ℚ) / 86400 : ℚ) : ℝ) / ((45 : ℚ) : ℝ))
      = 59 / 64800 := by
    have : ((Scenarios.c5Now - Scenarios.c5Card.payload.last_decay_at.getD
        Scenarios.c5Card.updated_at : ℤ) : ℚ) / 86400 = 59 / 1440 := by
      norm_num [Scenarios.c5Now, Scenarios.c5Card, Option.getD]
    rw [this]
    push_cast
    norm_num
  have hs1 : (Scenarios.c5Card.strength : ℚ) = 1 := rfl
  rw [hx, hs1]
  set t : ℝ := Real.log 2 * (59 / 64800) with ht_def
  have hy : (1/2 : ℝ) ^ ((59 : ℝ) / 64800) = Real.exp (-t) := by
    rw [Real.rpow_def_of_pos (by norm_num : (0:ℝ) < 1/2)]
    rw [show Real.log (1/2) = -Real.log 2 by
      rw [one_div, Real.log_inv]]
    ring_nf
  have hlog_lo := Real.log_two_gt_d9
  have hlog_hi := Real.log_two_lt_d9
  have ht_lo : 0.000631 < t := by
    rw [ht_def]
    nlinarith [hlog_lo]
  have ht_hi : t < 0.000632 := by
    rw [ht_def]
    nlinarith [hlog_hi]
  set y : ℝ := Real.exp (-t) with hy_def
  have hy0 : 0 < y := Real.exp_pos _
  have hy_le1 : y ≤ 1 := by
    rw [hy_def, Real.exp_le_one_iff]
    nlinarith
  have hy_lo : 1 - t ≤ y := by
    have := Real.add_one_le_exp (-t)
    rw [hy_def]
    linarith
  have hy_mul : y * (1 + t) ≤ 1 := by
    have h1 : t + 1 ≤ Real.exp t := Real.add_one_le_exp t
    have h2 : y * Real.exp t = 1 := by
      rw [hy_def, ← Real.exp_add]
      simp
    nlinarith [hy0.le]
  have hy_up : y < 0.9995 := by
    nlinarith [hy_mul, ht_lo, hy0]
  rw [hy]
  have harg : ((1 : ℚ) : ℝ) * y = y := by push_cast; ring
  rw [harg]
  have hclamp : Decay.clamp01R y = y := by
    unfold Decay.clamp01R
    rw [if_neg (by linarith), if_neg (by linarith)]
  rw [hclamp]
  have hround : round (y * 1000) = 999 := by
    rw [round_eq, Int.floor_eq_iff]
    constructor
    · push_cast
      nlinarith [hy_lo, ht_hi]
    · push_cast
      nlinarith [hy_up]
  unfold Decay.round3
  rw [hround]
  intro hcontra
  rw [show ((999 : ℤ) : ℚ) / 1000 = 999/1000 by norm_num] at hcontra
  have : (999 : ℚ)/1000 ≠ 1 := by norm_num
  exact this hcontra

/-- C6: each selected card is rewritten by decayCard, which preserves updated_at, summary, kind, topic_key, status and the rest of the payload and never lowers the decay reference; payload.last_decay_at is set to now exactly when the signal total is positive or min_interval has elapsed, and otherwise the card, including its old last_decay_at, is returned unchanged. -/
theorem C6_frame_last_decay (vantage : String) (limit : ℤ) (hl : ℚ) (sw mi now : ℤ)
    (cards : List Decay.Card) (signals : List Decay.Signal) (c : Decay.Card)
    (hlim : 0 < limit) (hhl : 0 < hl) (hsw : 0 < sw) (hmi : 0 ≤ mi)
    (hsel : c ∈ Decay.selectCards vantage limit cards)
    (href : c.payload.last_decay_at.getD c.updated_at ≤ now) :
    ∃ c', Decay.decayCard vantage hl sw ((mi : ℚ) / 1440) now signals c = c'
    ∧ c' ∈ Decay.card_decay_once vantage limit hl sw mi now cards signals
    ∧ c'.updated_at = c.updated_at
    ∧ c'.summary = c.summary
    ∧ c'.kind = c.kind
    ∧ c'.topic_key = c.topic_key
    ∧ c'.status = c.status
    ∧ c'.payload.rest = c.payload.rest
    ∧ c.payload.last_decay_at.getD c.updated_at
        ≤ c'.payload.last_decay_at.getD c'.updated_at
    ∧ ((0 < Decay.sigSum (Decay.matchingSignals vantage sw now
          (c.payload.last_decay_at.getD c.updated_at) signals c) ["reward"]
        + Decay.sigSum (Decay.matchingSignals vantage sw now
          (c.payload.last_decay_at.getD c.updated_at) signals c) ["punish", "correction"]
        + Decay.sigSum (Decay.matchingSignals vantage sw now
          (c.payload.last_decay_at.getD c.updated_at) signals c) ["use"]
        ∨ (mi : ℚ) / 1440
          ≤ ((now - c.payload.last_decay_at.getD c.updated_at : ℤ) : ℚ) / 86400) →
        c'.payload.last_decay_at = some now)
    ∧ (¬ (0 < Decay.sigSum (Decay.matchingSignals vantage sw now
          (c.payload.last_decay_at.getD c.updated_at) signals c) ["reward"]
        + Decay.sigSum (Decay.matchingSignals vantage sw now
          (c.payload.last_decay_at.getD c.updated_at) signals c) ["punish", "correction"]
        + Decay.sigSum (Decay.matchingSignals vantage sw now
          (c.payload.last_decay_at.getD c.updated_at) signals c) ["use"]) →
        ((now - c.payload.last_decay_at.getD c.updated_at : ℤ) : ℚ) / 86400
          < (mi : ℚ) / 1440 →
        c' = c) := by
  have hmem := Decay.decayCard_mem_run vantage limit hl sw mi now cards signals c
    hlim hhl hsw hmi hsel
  by_cases hc : (0 < Decay.sigSum (Decay.matchingSignals vantage sw now
        (c.payload.last_decay_at.getD c.updated_at) signals c) ["reward"]
      + Decay.sigSum (Decay.matchingSignals vantage sw now
        (c.payload.last_decay_at.getD c.updated_at) signals c) ["punish", "correction"]
      + Decay.sigSum (Decay.matchingSignals vantage sw now
        (c.payload.last_decay_at.getD c.updated_at) signals c) ["use"]
      ∨ (mi : ℚ) / 1440
        ≤ ((now - c.payload.last_decay_at.getD c.updated_at : ℤ) : ℚ) / 86400)
  · obtain ⟨s, k, heq⟩ := Decay.decayCard_update vantage hl sw ((mi : ℚ) / 1440) now
      signals c href hc
    refine ⟨_, rfl, hmem, ?_, ?_, ?_, ?_, ?_, ?_, ?_, ?_, ?_⟩
    · rw [heq]
    · rw [heq]
    · rw [heq]
    · rw [heq]
    · rw [heq]
    · rw [heq]
    · rw [heq]; simp; exact href
    · intro _; rw [heq]
    · intro hns hdt
      rcases hc with h | h
      · exact absurd h hns
      · exact absurd h (not_le.mpr hdt)
  · push_neg at hc
    have heq := Decay.decayCard_skip vantage hl sw ((mi : ℚ) / 1440) now signals c
      href (not_lt.mpr hc.1) hc.2
    refine ⟨c, heq, by rw [← heq]; exact hmem, rfl, rfl, rfl, rfl, rfl, rfl, le_refl _,
      ?_, fun _ _ => rfl⟩
    intro hcond
    rcases hcond with h | h
    · exact absurd h (not_lt.mpr hc.1)
    · exact absurd h (not_le.mpr hc.2)

/-- C6 counterexample: a selected card only 30 minutes past its decay reference survives the decay run with payload.last_decay_at still different from the run time, against the unconditional rewrite stated by the claim. -/
theorem C6_counterexample :
    Scenarios.c6Card ∈ Decay.selectCards "default" 50 [Scenarios.c6Card]
    ∧ Decay.card_decay_once "default" 50 45 180 60 1000000 [Scenarios.c6Card] []
        = [Scenarios.c6Card]
    ∧ Scenarios.c6Card.payload.last_decay_at ≠ some 1000000 := by
  have hskip : Decay.decayCard "default" 45 180 (((60 : ℤ) : ℚ) / 1440) 1000000 []
      Scenarios.c6Card = Scenarios.c6Card := by
    apply Decay.decayCard_skip
    · decide
    · simp [Decay.matchingSignals, Decay.sigSum]
    · norm_num [Scenarios.c6Card, Option.getD]
  have hsel : Decay.selectCards "default" 50 [Scenarios.c6Card] = [Scenarios.c6Card] := rfl
  refine ⟨by rw [hsel]; exact List.mem_singleton.mpr rfl, ?_, by decide⟩
  unfold Decay.card_decay_once
  rw [if_neg (by norm_num : ¬ (50 : ℤ) ≤ 0)]
  simp only [if_neg (show ¬ (45 : ℚ) ≤ 0 by norm_num),
    if_neg (show ¬ (180 : ℤ) ≤ 0 by norm_num),
    if_neg (show ¬ (60 : ℤ) < 0 by norm_num)]
  simp only [List.map_cons, List.map_nil]
  rw [if_pos (by decide), hskip]

/-- C6 witness: a card past the interval threshold gets payload.last_decay_at = now while its payload rest and updated_at stay what they were. -/
theorem C6_witness :
    (Decay.decayCard "default" 45 180 (((60 : ℤ) : ℚ) / 1440) 172800 []
      Scenarios.c6WitnessCard).payload.last_decay_at = some 172800
    ∧ (Decay.decayCard "default" 45 180 (((60 : ℤ) : ℚ) / 1440) 172800 []
      Scenarios.c6WitnessCard).payload.rest = "keep"
    ∧ (Decay.decayCard "default" 45 180 (((60 : ℤ) : ℚ) / 1440) 172800 []
      Scenarios.c6WitnessCard).updated_at = 0 := by
  obtain ⟨c', heq, _, hupd, _, _, _, _, hrest, _, hlast, _⟩ :=
    C6_frame_last_decay "default" 50 45 180 60 172800 [Scenarios.c6WitnessCard] []
      Scenarios.c6WitnessCard (by norm_num) (by norm_num) (by norm_num) (by norm_num)
      (by
        rw [show Decay.selectCards "default" 50 [Scenarios.c6WitnessCard]
          = [Scenarios.c6WitnessCard] from rfl]
        exact List.mem_singleton.mpr rfl) (by decide)
  rw [heq]
  refine ⟨hlast (Or.inr (by norm_num [Scenarios.c6WitnessCard, Option.getD])), ?_, ?_⟩
  · rw [hrest]
    rfl
  · rw [hupd]
    rfl

namespace Fact

theorem mem_insertByCreatedDesc {a c : ChatLogRow} : ∀ {l : List ChatLogRow},
    a ∈ insertByCreatedDesc c l ↔ a = c ∨ a ∈ l := by
  intro l
  induction l with
  | nil => simp [insertByCreatedDesc]
  | cons d ds ih =>
    simp only [insertByCreatedDesc]
    split
    · simp only [List.mem_cons, ih]; tauto
    · simp [List.mem_cons]

theorem mem_sortByCreatedDesc {a : ChatLogRow} : ∀ {l : List ChatLogRow},
    a ∈ sortByCreatedDesc l ↔ a ∈ l := by
  intro l
  induction l with
  | nil => simp [sortByCreatedDesc]
  | cons c cs ih =>
    simp only [sortByCreatedDesc, mem_insertByCreatedDesc, ih, List.mem_cons]

theorem seed_fold_mem (now : ℤ) : ∀ (cands : List ChatLogRow) (acc : List Source × ℕ)
    (n : Source),
    n ∈ (cands.foldl (fun acc cl =>
      (acc.1 ++ [mkSeedSource now acc.2 cl], acc.2 + 1)) acc).1 →
    n ∈ acc.1 ∨ ∃ cl ∈ cands, ∃ k, n = mkSeedSource now k cl := by
  intro cands
  induction cands with
  | nil => intro acc n h; exact Or.inl h
  | cons c cs ih =>
    intro acc n h
    simp only [List.foldl_cons] at h
    rcases ih _ n h with h1 | ⟨cl, hcl, k, hk⟩
    · rcases List.mem_append.mp h1 with h2 | h3
      · exact Or.inl h2
      · right
        exact ⟨c, List.mem_cons_self c cs, acc.2, by simpa using h3⟩
    · right
      exact ⟨cl, List.mem_cons_of_mem _ hcl, k, hk⟩

end Fact

/-- C7: the seed pass only appends source rows, every pre-existing source row survives unchanged, and if some source with external_id chat_log:<id> already exists then no appended row carries that external_id, so re-seeding the same chat_log id inserts zero new sources for it. -/
theorem C7_seed_idempotent (st : Fact.PState) (vantage : String) (limit : ℤ) (cid : ℕ)
    (hex : ∃ s ∈ st.sources, s.external_id = Fact.extId cid) :
    ∃ fresh, (Fact.fact_seed_from_chat_log_once st vantage limit).1.sources
        = st.sources ++ fresh
      ∧ (∀ s ∈ st.sources,
          s ∈ (Fact.fact_seed_from_chat_log_once st vantage limit).1.sources)
      ∧ ∀ n ∈ fresh, n.external_id ≠ Fact.extId cid := by
  obtain ⟨s0, hs0, he0⟩ := hex
  unfold Fact.fact_seed_from_chat_log_once
  dsimp only
  split
  · exact ⟨[], by simp, fun s hs => by simpa using hs, by simp⟩
  · refine ⟨_, rfl, fun s hs => List.mem_append_left _ hs, ?_⟩
    intro n hn hne
    rcases Fact.seed_fold_mem st.now _ _ _ hn with h1 | ⟨cl, hcl, k, hk⟩
    · simp at h1
    · have hcand : Fact.seedCandidate st vantage cl = true := by
        have h2 := List.mem_of_mem_take hcl
        have h3 := Fact.mem_sortByCreatedDesc.mp h2
        exact (List.mem_filter.mp h3).2
      have hext : n.external_id = Fact.extId cl.id := by rw [hk]; rfl
      have : st.sources.any (fun s => s.external_id == Fact.extId cl.id) = true :=
        List.any_eq_true.mpr ⟨s0, hs0, by rw [he0, ← hne, hext]; simp⟩
      simp only [Fact.seedCandidate, Bool.and_eq_true] at hcand
      have hno := hcand.1.2
      rw [Bool.not_eq_true'] at hno
      rw [this] at hno
      simp at hno

/-- C8 counterexample: with no query tags at all, no tag is a key of the weights map, yet compute_misalignment returns 0 and not 3/10. -/
theorem C8_counterexample :
    Gravity.compute_misalignment [] [("a", 1)] = 0 ∧ (0 : ℚ) ≠ 3/10 := by
  constructor
  · rfl
  · norm_num

/-- C8: compute_misalignment returns 0 when the query tags or the weights map are empty, 3/10 when both are nonempty but no tag is a key of the weights map, and otherwise the fraction of overlapping tags whose weight is nonpositive; the result always lies in [0, 1]. -/
theorem C8_misalignment (query_tags : List String) (weights : List (String × ℚ)) :
    (query_tags = [] ∨ weights = [] → Gravity.compute_misalignment query_tags weights = 0)
    ∧ (weights ≠ [] → query_tags ≠ [] →
        query_tags.filter (Gravity.keyMem weights) = [] →
        Gravity.compute_misalignment query_tags weights = 3/10)
    ∧ (query_tags.filter (Gravity.keyMem weights) ≠ [] →
        Gravity.compute_misalignment query_tags weights
          = (((query_tags.filter (Gravity.keyMem weights)).filter
              (fun t => Decidable.decide (Gravity.getW weights t ≤ 0))).length : ℚ)
            / ((query_tags.filter (Gravity.keyMem weights)).length : ℚ))
    ∧ 0 ≤ Gravity.compute_misalignment query_tags weights
    ∧ Gravity.compute_misalignment query_tags weights ≤ 1 := by
  refine ⟨?_, ?_, ?_, ?_, ?_⟩
  · intro h
    rcases h with h | h <;> simp [Gravity.compute_misalignment, h]
  · intro hw hq hov
    unfold Gravity.compute_misalignment
    rw [if_neg (by simp [List.isEmpty_iff, hw, hq])]
    dsimp only
    rw [if_pos (by simp [List.isEmpty_iff, hov])]
  · intro hov
    have hq : query_tags ≠ [] := by
      intro h
      exact hov (by simp [h])
    have hw : weights ≠ [] := by
      obtain ⟨t, ht⟩ := List.exists_mem_of_ne_nil _ hov
      have := (List.mem_filter.mp ht).2
      intro h
      rw [h] at this
      simp [Gravity.keyMem] at this
    unfold Gravity.compute_misalignment
    rw [if_neg (by simp [List.isEmpty_iff, hw, hq])]
    dsimp only
    rw [if_neg (by simp [List.isEmpty_iff, hov])]
    have hpos : 0 < ((query_tags.filter (Gravity.keyMem weights)).length : ℚ) := by
      have := List.length_pos.mpr hov
      exact_mod_cast this
    have hfrac0 : 0 ≤ (((query_tags.filter (Gravity.keyMem weights)).filter
        (fun t => Decidable.decide (Gravity.getW weights t ≤ 0))).length : ℚ)
        / ((query_tags.filter (Gravity.keyMem weights)).length : ℚ) :=
      div_nonneg (by positivity) hpos.le
    have hfrac1 : (((query_tags.filter (Gravity.keyMem weights)).filter
        (fun t => Decidable.decide (Gravity.getW weights t ≤ 0))).length : ℚ)
        / ((query_tags.filter (Gravity.keyMem weights)).length : ℚ) ≤ 1 := by
      rw [div_le_one hpos]
      exact_mod_cast List.length_filter_le _ _
    rw [max_eq_right hfrac0, min_eq_right hfrac1]
  · unfold Gravity.compute_misalignment
    split_ifs with h1
    · norm_num
    · dsimp only
      split_ifs with h2
      · norm_num
      · exact le_min (by norm_num) (le_max_left 0 _)
  · unfold Gravity.compute_misalignment
    split_ifs with h1
    · norm_num
    · dsimp only
      split_ifs with h2
      · norm_num
      · exact min_le_left _ _

/-- C9: when the requested card point exists, its stripped topic_key is __singleton__ and its stripped user_id matches the canonicalized caller, cards_delete answers (403, singleton_locked) and the point store is returned unchanged. -/
theorem C9_singleton_locked (aliases : List Cards.AliasRow) (points : List Cards.Point)
    (user_id card_id vantage_id : String) (p : Cards.Point)
    (hfind : points.find? (fun q => q.id == card_id) = some p)
    (hsing : Cards.pyStrip p.topic_key = "__singleton__")
    (howner : Cards.pyStrip p.user_id = (Cards.resolve_canonical_user_id aliases vantage_id
        (Cards.orIfEmpty (Cards.pyStrip user_id) "anon")).1) :
    Cards.cards_delete aliases points user_id card_id vantage_id
      = ((403, "singleton_locked"), points) := by
  unfold Cards.cards_delete
  dsimp only
  rw [hfind]
  dsimp only
  rw [if_neg (by simp [howner])]
  rw [if_pos hsing]

/-- C9 witness: deleting the concrete singleton gravity_profile point of user u1 answers 403 and keeps the store. -/
theorem C9_witness :
    Cards.cards_delete [] Scenarios.c9Points "u1"
        "11111111-1111-1111-1111-111111111111" "default"
      = ((403, "singleton_locked"), Scenarios.c9Points) :=
  C9_singleton_locked [] Scenarios.c9Points "u1" "11111111-1111-1111-1111-111111111111" "default"
    { id := "11111111-1111-1111-1111-111111111111"
      user_id := "u1"
      kind := "gravity_profile"
      topic_key := "__singleton__" }
    (by decide) (by decide) (by decide)

/-- C7 witness: on a store already holding the seeded source of chat_log row 1, the seed pass appends no row with external_id chat_log:1. -/
theorem C7_witness :
    ∃ fresh, (Fact.fact_seed_from_chat_log_once Scenarios.c7State "default" 5).1.sources
        = Scenarios.c7State.sources ++ fresh
      ∧ (∀ s ∈ Scenarios.c7State.sources,
          s ∈ (Fact.fact_seed_from_chat_log_once Scenarios.c7State "default" 5).1.sources)
      ∧ ∀ n ∈ fresh, n.external_id ≠ Fact.extId 1 :=
  C7_seed_idempotent Scenarios.c7State "default" 5 1 (by decide)

/-- C4 witness: failing the concrete running job requeues it at now + 10 with locks cleared and closes its run with the error. -/
theorem C4_witness :
    (Initiator.finish_job_failure Scenarios.qFailState 1 1 "after" "boom").jobs.map
        (fun j => (j.status, j.scheduled_at, j.locked_by, j.locked_at, j.last_error))
      = [(Initiator.JobStatus.queued, 90, none, none, some "boom")]
    ∧ (Initiator.finish_job_failure Scenarios.qFailState 1 1 "after" "boom").runs.map
        (fun r => (r.finished_at, r.after_drives, r.outcome, r.error))
      = [(some 80, some "after", none, some "boom")] := by
  have h := C4_finish_job_failure Scenarios.qFailState 1 1 "after" "boom"
    Scenarios.qFailJob Scenarios.qFailRun
    (by decide) (by decide) (by decide) (by decide) (by decide)
  exact ⟨by decide, by decide⟩

/-- C3 witness: on a queue with one claimable heartbeat job, claim_one_job hands out job 1 with its payload and the fresh run id. -/
theorem C3_witness :
    (Initiator.claim_one_job Scenarios.qState "default" "w1" "drv" ["heartbeat"] 1).1
      = some (1, "heartbeat", "{}", 1) := by
  have h := (C3_claim_one_job Scenarios.qState "default" "w1" "drv" ["heartbeat"] 1).2
    (by decide) Scenarios.qJob (by decide)
  rw [h.2.2]
  rfl

/-- C1 counterexample: decide on the features of the input "you must fix this now or i\x27ll report you" under limits Y=1, R=0, C=0, S=0 and default routing returns response class COMPLY, not the REFUSE stated by the claim. -/
theorem C1_counterexample :
    (VE.decide (VE.extract_sd_features "you must fix this now or i'll report you" "").toDict
      (VE.derive_params (VE.extract_sd_features "you must fix this now or i'll report you" "")
        (VE.normalize_limits { Y := some 1, R := some 0, C := some 0, S := some 0 })).toDict
      {}).response_class = "COMPLY" ∧ ("COMPLY" : String) ≠ "REFUSE" := by
  constructor
  · with_unfolding_all decide
  · decide

/-- C1: for the input "you must fix this now or i\x27ll report you" with empty context, extract_sd_features yields AP ≥ 0.2 and CO ≥ 0.3, and with limits Y=1, R=0, C=0, S=0 and default routing, decide returns response class COMPLY: CO = 0.3 does not exceed the 0.50 NEGOTIATE-or-REFUSE threshold and no other branch fires before the default. -/
theorem C1_decide_comply :
    (VE.extract_sd_features "you must fix this now or i'll report you" "").AP ≥ 1/5
    ∧ (VE.extract_sd_features "you must fix this now or i'll report you" "").CO ≥ 3/10
    ∧ (VE.decide (VE.extract_sd_features "you must fix this now or i'll report you" "").toDict
      (VE.derive_params (VE.extract_sd_features "you must fix this now or i'll report you" "")
        (VE.normalize_limits { Y := some 1, R := some 0, C := some 0, S := some 0 })).toDict
      {}).response_class = "COMPLY" := by
  refine ⟨?_, ?_, ?_⟩ <;> with_unfolding_all decide

set_option maxHeartbeats 3200000 in
set_option synthInstance.maxSize 1000 in
/-- C2: from a fresh store holding the single user message "Coffee: yes\nMood: calm", one seed pass, one extract pass and one consolidate pass yield exactly two pref cards, attr coffee = yes and attr mood = calm, with value_counts of 1 for their values, strength 0.50 and confidence 0.70, each carrying card_link rows to source 1, chat_log 1 and its own claim row. -/
theorem C2_pipeline_cards_and_links :
    (Scenarios.c2End.cards.filter (fun c => c.kind == "pref")).map
        (fun c => (c.card_id, c.topic_key, c.payload.current_value,
          c.payload.value_counts, c.strength, c.confidence))
      = [(2, "user/u1/pref/coffee", some "yes", [("yes", 1)], 1/2, 7/10),
         (3, "user/u1/pref/mood", some "calm", [("calm", 1)], 1/2, 7/10)]
    ∧ (Scenarios.c2End.links.filter (fun l => l.card_id == 2)).map
        (fun l => (l.link_type, l.ref_id))
      = [("source", "1"), ("chat_log", "1"), ("claim", "2")]
    ∧ (Scenarios.c2End.links.filter (fun l => l.card_id == 3)).map
        (fun l => (l.link_type, l.ref_id))
      = [("source", "1"), ("chat_log", "1"), ("claim", "3")]
    ∧ Scenarios.c2End.claims.map (fun c => (c.claim_id, c.predicate, c.object_v))
      = [(1, "doc.content_sha256", "sha256:Coffee: yes\nMood: calm"),
         (2, "attr.coffee", "yes"), (3, "attr.mood", "calm")] := by
  refine ⟨?_, ?_, ?_, ?_⟩ <;> with_unfolding_all decide

set_option maxHeartbeats 3200000 in
/-- C10: for every sd map, params map and routing dict, including missing or out-of-range routing values, decide returns max_clarify_questions within [0, 3], equal to 0 whenever the response class is not CLARIFY, and at least 1 whenever the response class is CLARIFY. -/
theorem C10_clarify_invariant (sd : VE.SDDict) (params : VE.ParamsDict) (routing : VE.Routing) :
    0 ≤ (VE.decide sd params routing).max_clarify_questions
    ∧ (VE.decide sd params routing).max_clarify_questions ≤ 3
    ∧ ((VE.decide sd params routing).response_class ≠ "CLARIFY" →
        (VE.decide sd params routing).max_clarify_questions = 0)
    ∧ ((VE.decide sd params routing).response_class = "CLARIFY" →
        1 ≤ (VE.decide sd params routing).max_clarify_questions) := by
  unfold VE.decide
  dsimp only
  split_ifs <;> simp_all <;> omega
